import Mathlib

/- Verification of the Fossilize pipeline-cache core
   (src/vulkan_pipeline_cache.cpp and src/cli/fossilize_replay_windows.hpp).

   Shallow embedding conventions:
   * machine integers are `Nat` (unsigned) or `Int` (signed); 32-bit floats are
     represented by their bit patterns as `Nat`, because the hasher reinterprets
     them as bits (`h.f32`) and the claims never compute with float arithmetic;
   * C arrays plus their count fields are modelled as Lean lists whose length is
     the count, except where a null pointer is distinguished from an empty array
     (then `Option (List _)` is used);
   * Vulkan object handles are `Nat` (the recorder stores `index + 1` in them,
     `0` is `VK_NULL_HANDLE`). -/

/-- Modelled from the spec: the 64-bit mixing `Hasher` lives in
`vulkan_pipeline_cache.hpp`, which is not under `src/`.  Per spec §4.1 its
contract is: "two token sequences hash equally iff they are element-wise equal
in both value and token type" (an order-sensitive accumulator over typed
tokens: u32, u64, s32, f32 bit-reinterpreted, string, data blob).  The hash is
therefore modelled as the typed token sequence itself. -/
inductive Token where
  | tu32 (v : Nat)
  | tu64 (v : Nat)
  | ts32 (v : Int)
  | tf32 (bits : Nat)
  | tstr (s : String)
  | tdata (bytes : List Nat)
deriving DecidableEq, Repr

/-- The `StateRecorder` as seen by `Hashing::compute_hash_graphics_pipeline`:
the `get_hash_for_*` lookups (`vulkan_pipeline_cache.cpp:1021-1082`) modelled
as total lookup functions from handle to hash (the claims only evaluate them on
registered handles; the C++ throws on unregistered ones). -/
structure Recorder where
  graphicsPipelineHash : Nat → Nat
  pipelineLayoutHash : Nat → Nat
  renderPassHash : Nat → Nat
  shaderModuleHash : Nat → Nat

/- Vulkan enum values used by the hashing code. -/
def vkDynamicStateViewport : Nat := 0
def vkDynamicStateScissor : Nat := 1
def vkDynamicStateLineWidth : Nat := 2
def vkDynamicStateDepthBias : Nat := 3
def vkDynamicStateBlendConstants : Nat := 4
def vkDynamicStateDepthBounds : Nat := 5
def vkDynamicStateStencilCompareMask : Nat := 6
def vkDynamicStateStencilWriteMask : Nat := 7
def vkDynamicStateStencilReference : Nat := 8

def vkBlendFactorConstantColor : Nat := 10
def vkBlendFactorOneMinusConstantColor : Nat := 11
def vkBlendFactorConstantAlpha : Nat := 12
def vkBlendFactorOneMinusConstantAlpha : Nat := 13

/- VkGraphicsPipelineCreateInfo and its sub-state blocks (fields restricted to
   those the source reads). -/

structure VkStencilOpState where
  compareOp : Nat
  depthFailOp : Nat
  failOp : Nat
  passOp : Nat
  compareMask : Nat
  reference : Nat
  writeMask : Nat
deriving DecidableEq

structure VkPipelineDepthStencilStateCreateInfo where
  flags : Nat
  depthBoundsTestEnable : Nat
  depthCompareOp : Nat
  depthTestEnable : Nat
  depthWriteEnable : Nat
  front : VkStencilOpState
  back : VkStencilOpState
  stencilTestEnable : Nat
  minDepthBounds : Nat
  maxDepthBounds : Nat
deriving DecidableEq

structure VkPipelineInputAssemblyStateCreateInfo where
  flags : Nat
  primitiveRestartEnable : Nat
  topology : Nat
deriving DecidableEq

structure VkPipelineRasterizationStateCreateInfo where
  flags : Nat
  cullMode : Nat
  depthClampEnable : Nat
  frontFace : Nat
  rasterizerDiscardEnable : Nat
  polygonMode : Nat
  depthBiasEnable : Nat
  depthBiasClamp : Nat
  depthBiasSlopeFactor : Nat
  depthBiasConstantFactor : Nat
  lineWidth : Nat
deriving DecidableEq

structure VkPipelineMultisampleStateCreateInfo where
  flags : Nat
  alphaToCoverageEnable : Nat
  alphaToOneEnable : Nat
  minSampleShading : Nat
  rasterizationSamples : Nat
  sampleShadingEnable : Nat
  sampleMask : Option (List Nat)
deriving DecidableEq

structure VkViewport where
  x : Nat
  y : Nat
  width : Nat
  height : Nat
  minDepth : Nat
  maxDepth : Nat
deriving DecidableEq

structure VkRect2D where
  offsetX : Int
  offsetY : Int
  extentWidth : Nat
  extentHeight : Nat
deriving DecidableEq

/-- Viewport state: `pScissors`/`pViewports` may be null pointers, hence
`Option`; `scissorCount`/`viewportCount` are modelled as the list lengths
(null pointer paired with a zero count). -/
structure VkPipelineViewportStateCreateInfo where
  flags : Nat
  scissors : Option (List VkRect2D)
  viewports : Option (List VkViewport)
deriving DecidableEq

structure VkVertexInputAttributeDescription where
  location : Nat
  binding : Nat
  format : Nat
  offset : Nat
deriving DecidableEq

structure VkVertexInputBindingDescription where
  binding : Nat
  inputRate : Nat
  stride : Nat
deriving DecidableEq

structure VkPipelineVertexInputStateCreateInfo where
  flags : Nat
  attributes : List VkVertexInputAttributeDescription
  bindings : List VkVertexInputBindingDescription
deriving DecidableEq

structure VkPipelineColorBlendAttachmentState where
  blendEnable : Nat
  colorWriteMask : Nat
  alphaBlendOp : Nat
  colorBlendOp : Nat
  dstAlphaBlendFactor : Nat
  srcAlphaBlendFactor : Nat
  dstColorBlendFactor : Nat
  srcColorBlendFactor : Nat
deriving DecidableEq

structure VkPipelineColorBlendStateCreateInfo where
  flags : Nat
  logicOpEnable : Nat
  logicOp : Nat
  attachments : List VkPipelineColorBlendAttachmentState
  blendConst0 : Nat
  blendConst1 : Nat
  blendConst2 : Nat
  blendConst3 : Nat
deriving DecidableEq

structure VkPipelineTessellationStateCreateInfo where
  flags : Nat
  patchControlPoints : Nat
deriving DecidableEq

structure VkPipelineDynamicStateCreateInfo where
  flags : Nat
  dynamicStates : List Nat
deriving DecidableEq

structure VkSpecializationMapEntry where
  offset : Nat
  size : Nat
  constantID : Nat
deriving DecidableEq

structure VkSpecializationInfo where
  data : List Nat
  mapEntries : List VkSpecializationMapEntry
deriving DecidableEq

structure VkPipelineShaderStageCreateInfo where
  flags : Nat
  name : String
  stage : Nat
  module : Nat
  specializationInfo : Option VkSpecializationInfo
deriving DecidableEq

structure VkGraphicsPipelineCreateInfo where
  flags : Nat
  basePipelineHandle : Nat
  basePipelineIndex : Int
  layout : Nat
  renderPass : Nat
  subpass : Nat
  stages : List VkPipelineShaderStageCreateInfo
  pDynamicState : Option VkPipelineDynamicStateCreateInfo
  pDepthStencilState : Option VkPipelineDepthStencilStateCreateInfo
  pInputAssemblyState : Option VkPipelineInputAssemblyStateCreateInfo
  pRasterizationState : Option VkPipelineRasterizationStateCreateInfo
  pMultisampleState : Option VkPipelineMultisampleStateCreateInfo
  pViewportState : Option VkPipelineViewportStateCreateInfo
  pVertexInputState : Option VkPipelineVertexInputStateCreateInfo
  pColorBlendState : Option VkPipelineColorBlendStateCreateInfo
  pTessellationState : Option VkPipelineTessellationStateCreateInfo
deriving DecidableEq

/-- The booleans (`dynamic_viewport` etc.) computed by the scan of the
dynamic-state list at `vulkan_pipeline_cache.cpp:109-159`: each is true iff
the given `VK_DYNAMIC_STATE_*` value occurs in `pDynamicStates` (they start
false and the switch sets them on first occurrence). -/
def dynActive (o : Option VkPipelineDynamicStateCreateInfo) (s : Nat) : Bool :=
  match o with
  | some d => d.dynamicStates.contains s
  | none => false

/-- Tokens fed before the dynamic-state scan
(`vulkan_pipeline_cache.cpp:96-107`): flags, optional base-pipeline hash and
index (nothing at all when the handle is null), layout hash, render-pass hash,
subpass, stageCount. -/
def gpBaseTokens (r : Recorder) (ci : VkGraphicsPipelineCreateInfo) : List Token :=
  Token.tu32 ci.flags ::
  ((if ci.basePipelineHandle ≠ 0 then
      [Token.tu64 (r.graphicsPipelineHash ci.basePipelineHandle), Token.ts32 ci.basePipelineIndex]
    else []) ++
   [Token.tu64 (r.pipelineLayoutHash ci.layout),
    Token.tu64 (r.renderPassHash ci.renderPass),
    Token.tu32 ci.subpass,
    Token.tu32 ci.stages.length])

/-- Dynamic-state block tokens (`vulkan_pipeline_cache.cpp:118-161`): for a
present block, dynamicStateCount, then flags, then each dynamic-state value;
for an absent block a single zero u32. -/
def dynTokens : Option VkPipelineDynamicStateCreateInfo → List Token
  | some d => Token.tu32 d.dynamicStates.length :: Token.tu32 d.flags ::
      d.dynamicStates.map Token.tu32
  | none => [Token.tu32 0]

/-- Depth-stencil block tokens (`vulkan_pipeline_cache.cpp:163-209`). -/
def dsTokens (dynDepthBounds dynStencilCompare dynStencilReference dynStencilWrite : Bool) :
    Option VkPipelineDepthStencilStateCreateInfo → List Token
  | some ds =>
      [Token.tu32 ds.flags, Token.tu32 ds.depthBoundsTestEnable, Token.tu32 ds.depthCompareOp,
       Token.tu32 ds.depthTestEnable, Token.tu32 ds.depthWriteEnable,
       Token.tu32 ds.front.compareOp, Token.tu32 ds.front.depthFailOp,
       Token.tu32 ds.front.failOp, Token.tu32 ds.front.passOp,
       Token.tu32 ds.back.compareOp, Token.tu32 ds.back.depthFailOp,
       Token.tu32 ds.back.failOp, Token.tu32 ds.back.passOp,
       Token.tu32 ds.stencilTestEnable] ++
      (if !dynDepthBounds && ds.depthBoundsTestEnable ≠ 0 then
         [Token.tf32 ds.minDepthBounds, Token.tf32 ds.maxDepthBounds]
       else []) ++
      (if ds.stencilTestEnable ≠ 0 then
         (if !dynStencilCompare then
            [Token.tu32 ds.front.compareMask, Token.tu32 ds.back.compareMask] else []) ++
         (if !dynStencilReference then
            [Token.tu32 ds.front.reference, Token.tu32 ds.back.reference] else []) ++
         (if !dynStencilWrite then
            [Token.tu32 ds.front.writeMask, Token.tu32 ds.back.writeMask] else [])
       else [])
  | none => [Token.tu32 0]

/-- Input-assembly block tokens (`vulkan_pipeline_cache.cpp:211-219`). -/
def iaTokens : Option VkPipelineInputAssemblyStateCreateInfo → List Token
  | some ia => [Token.tu32 ia.flags, Token.tu32 ia.primitiveRestartEnable, Token.tu32 ia.topology]
  | none => [Token.tu32 0]

/-- Rasterization block tokens (`vulkan_pipeline_cache.cpp:221-243`). -/
def rsTokens (dynDepthBias dynLineWidth : Bool) :
    Option VkPipelineRasterizationStateCreateInfo → List Token
  | some rs =>
      [Token.tu32 rs.flags, Token.tu32 rs.cullMode, Token.tu32 rs.depthClampEnable,
       Token.tu32 rs.frontFace, Token.tu32 rs.rasterizerDiscardEnable,
       Token.tu32 rs.polygonMode, Token.tu32 rs.depthBiasEnable] ++
      (if rs.depthBiasEnable ≠ 0 && !dynDepthBias then
         [Token.tf32 rs.depthBiasClamp, Token.tf32 rs.depthBiasSlopeFactor,
          Token.tf32 rs.depthBiasConstantFactor]
       else []) ++
      (if !dynLineWidth then [Token.tf32 rs.lineWidth] else [])
  | none => [Token.tu32 0]

/-- Multisample block tokens (`vulkan_pipeline_cache.cpp:245-262`).  Note the
source has no `else h.u32(0)` for this block: an absent multisample state
contributes no token at all.  The sample mask contributes
`(rasterizationSamples + 31) / 32` words (reads past the end of a shorter
array are undefined in C++ and modelled as 0). -/
def msTokens : Option VkPipelineMultisampleStateCreateInfo → List Token
  | some ms =>
      [Token.tu32 ms.flags, Token.tu32 ms.alphaToCoverageEnable, Token.tu32 ms.alphaToOneEnable,
       Token.tf32 ms.minSampleShading, Token.tu32 ms.rasterizationSamples,
       Token.tu32 ms.sampleShadingEnable] ++
      (match ms.sampleMask with
       | some mask =>
           (List.range ((ms.rasterizationSamples + 31) / 32)).map
             (fun i => Token.tu32 (mask.getD i 0))
       | none => [Token.tu32 0])
  | none => []

def scissorTokens (s : VkRect2D) : List Token :=
  [Token.ts32 s.offsetX, Token.ts32 s.offsetY, Token.tu32 s.extentWidth, Token.tu32 s.extentHeight]

def viewportTokens (v : VkViewport) : List Token :=
  [Token.tf32 v.x, Token.tf32 v.y, Token.tf32 v.width, Token.tf32 v.height,
   Token.tf32 v.minDepth, Token.tf32 v.maxDepth]

/-- Viewport block tokens (`vulkan_pipeline_cache.cpp:264-295`): flags,
scissorCount, viewportCount, then the scissor rectangles unless
`VK_DYNAMIC_STATE_SCISSOR` is dynamic, then the viewports unless
`VK_DYNAMIC_STATE_VIEWPORT` is dynamic. -/
def vpTokens (dynScissor dynViewport : Bool) :
    Option VkPipelineViewportStateCreateInfo → List Token
  | some vp =>
      [Token.tu32 vp.flags, Token.tu32 (vp.scissors.getD []).length,
       Token.tu32 (vp.viewports.getD []).length] ++
      (if !dynScissor then (vp.scissors.getD []).flatMap scissorTokens else []) ++
      (if !dynViewport then (vp.viewports.getD []).flatMap viewportTokens else [])
  | none => [Token.tu32 0]

/-- Vertex-input block tokens (`vulkan_pipeline_cache.cpp:297-320`). -/
def viTokens : Option VkPipelineVertexInputStateCreateInfo → List Token
  | some vi =>
      [Token.tu32 vi.flags, Token.tu32 vi.attributes.length, Token.tu32 vi.bindings.length] ++
      vi.attributes.flatMap (fun a =>
        [Token.tu32 a.offset, Token.tu32 a.binding, Token.tu32 a.format, Token.tu32 a.location]) ++
      vi.bindings.flatMap (fun b =>
        [Token.tu32 b.binding, Token.tu32 b.inputRate, Token.tu32 b.stride])
  | none => [Token.tu32 0]

/-- Per-attachment tokens of the color-blend block
(`vulkan_pipeline_cache.cpp:332-359`). -/
def attTokens (a : VkPipelineColorBlendAttachmentState) : List Token :=
  Token.tu32 a.blendEnable ::
  (if a.blendEnable ≠ 0 then
     [Token.tu32 a.colorWriteMask, Token.tu32 a.alphaBlendOp, Token.tu32 a.colorBlendOp,
      Token.tu32 a.dstAlphaBlendFactor, Token.tu32 a.srcAlphaBlendFactor,
      Token.tu32 a.dstColorBlendFactor, Token.tu32 a.srcColorBlendFactor]
   else [Token.tu32 0])

/-- `need_blend_constants` (`vulkan_pipeline_cache.cpp:330-355`): true iff some
attachment with `blendEnable` uses `VK_BLEND_FACTOR_CONSTANT_ALPHA` or
`VK_BLEND_FACTOR_CONSTANT_COLOR` in one of the four factor slots.  (The
`ONE_MINUS_CONSTANT_*` factors are NOT checked by the source.) -/
def needBlendConstants (atts : List VkPipelineColorBlendAttachmentState) : Bool :=
  atts.any (fun a =>
    a.blendEnable ≠ 0 &&
    (a.dstAlphaBlendFactor = vkBlendFactorConstantAlpha ||
     a.dstAlphaBlendFactor = vkBlendFactorConstantColor ||
     a.srcAlphaBlendFactor = vkBlendFactorConstantAlpha ||
     a.srcAlphaBlendFactor = vkBlendFactorConstantColor ||
     a.dstColorBlendFactor = vkBlendFactorConstantAlpha ||
     a.dstColorBlendFactor = vkBlendFactorConstantColor ||
     a.srcColorBlendFactor = vkBlendFactorConstantAlpha ||
     a.srcColorBlendFactor = vkBlendFactorConstantColor))

def blendConstTokens (b : VkPipelineColorBlendStateCreateInfo) : List Token :=
  [Token.tf32 b.blendConst0, Token.tf32 b.blendConst1,
   Token.tf32 b.blendConst2, Token.tf32 b.blendConst3]

/-- Color-blend block tokens (`vulkan_pipeline_cache.cpp:322-366`): flags,
attachmentCount, logicOpEnable, logicOp, per-attachment tokens, then the four
blend constants iff `need_blend_constants` and blend constants are not
dynamic. -/
def cbTokens (dynBlendConstants : Bool) :
    Option VkPipelineColorBlendStateCreateInfo → List Token
  | some b =>
      [Token.tu32 b.flags, Token.tu32 b.attachments.length,
       Token.tu32 b.logicOpEnable, Token.tu32 b.logicOp] ++
      b.attachments.flatMap attTokens ++
      (if needBlendConstants b.attachments && !dynBlendConstants then blendConstTokens b else [])
  | none => [Token.tu32 0]

/-- Tessellation block tokens (`vulkan_pipeline_cache.cpp:368-375`). -/
def tessTokens : Option VkPipelineTessellationStateCreateInfo → List Token
  | some t => [Token.tu32 t.flags, Token.tu32 t.patchControlPoints]
  | none => [Token.tu32 0]

/-- `hash_specialization_info` (`vulkan_pipeline_cache.cpp:79-90`). -/
def specTokens : Option VkSpecializationInfo → List Token
  | some sp =>
      [Token.tdata sp.data, Token.tu32 sp.data.length, Token.tu32 sp.mapEntries.length] ++
      sp.mapEntries.flatMap (fun e => [Token.tu32 e.offset, Token.tu32 e.size, Token.tu32 e.constantID])
  | none => [Token.tu32 0]

/-- Shader-stage tokens (`vulkan_pipeline_cache.cpp:377-391`). -/
def stagesTokens (r : Recorder) (stages : List VkPipelineShaderStageCreateInfo) : List Token :=
  stages.flatMap (fun s =>
    [Token.tu32 s.flags, Token.tstr s.name, Token.tu32 s.stage,
     Token.tu64 (r.shaderModuleHash s.module)] ++ specTokens s.specializationInfo)

/-- `Hashing::compute_hash_graphics_pipeline` (`vulkan_pipeline_cache.cpp:92-394`)
as the token sequence it feeds to the hasher, block by block in source order. -/
def computeHashGraphicsPipeline (r : Recorder) (ci : VkGraphicsPipelineCreateInfo) : List Token :=
  gpBaseTokens r ci ++
  dynTokens ci.pDynamicState ++
  dsTokens (dynActive ci.pDynamicState vkDynamicStateDepthBounds)
    (dynActive ci.pDynamicState vkDynamicStateStencilCompareMask)
    (dynActive ci.pDynamicState vkDynamicStateStencilReference)
    (dynActive ci.pDynamicState vkDynamicStateStencilWriteMask) ci.pDepthStencilState ++
  iaTokens ci.pInputAssemblyState ++
  rsTokens (dynActive ci.pDynamicState vkDynamicStateDepthBias)
    (dynActive ci.pDynamicState vkDynamicStateLineWidth) ci.pRasterizationState ++
  msTokens ci.pMultisampleState ++
  vpTokens (dynActive ci.pDynamicState vkDynamicStateScissor)
    (dynActive ci.pDynamicState vkDynamicStateViewport) ci.pViewportState ++
  viTokens ci.pVertexInputState ++
  cbTokens (dynActive ci.pDynamicState vkDynamicStateBlendConstants) ci.pColorBlendState ++
  tessTokens ci.pTessellationState ++
  stagesTokens r ci.stages

/- =====================  StateReplayer::parse  ===================== -/

/-- JSON values as produced by `doc.Parse` / consumed by the serializer.
Numbers are `Int` (floats are carried as the `Nat`/`Int` field values of the
embedding, see the header comment). -/
inductive JValue where
  | num (n : Int)
  | str (s : String)
  | arr (elems : List JValue)
  | obj (fields : List (String × JValue))

/-- `doc["key"]` lookup; `none` when the member is absent (`HasMember` false). -/
def JValue.member? : JValue → String → Option JValue
  | .obj fields, k => fields.lookup k
  | _, _ => none

/-- Errors the parser can signal.  `danglingReference` models the
`throw logic_error(... out of range)` statements; `structuralMismatch` models a
member access or type access on a missing/mistyped JSON value (rapidjson
asserts there; the spec folds it into the MalformedDocument failure). -/
inductive PErr where
  | structuralMismatch
  | danglingReference
deriving DecidableEq

/-- Callbacks delivered to the `StateCreatorInterface` engine.  The payload
create-info pointer is elided; the hash and index arguments are kept.  The
compute/graphics constructors exist so the claims about them can be stated:
the source parser never emits them. -/
inductive Cb where
  | setNumShaderModules (n : Nat)
  | createShaderModule (hash : Int) (index : Nat)
  | setNumSamplers (n : Nat)
  | createSampler (hash : Int) (index : Nat)
  | setNumDescriptorSetLayouts (n : Nat)
  | createDescriptorSetLayout (hash : Int) (index : Nat)
  | setNumPipelineLayouts (n : Nat)
  | createPipelineLayout (hash : Int) (index : Nat)
  | setNumRenderPasses (n : Nat)
  | createRenderPass (hash : Int) (index : Nat)
  | setNumComputePipelines (n : Nat)
  | createComputePipeline (hash : Int) (index : Nat)
  | setNumGraphicsPipelines (n : Nat)
  | createGraphicsPipelines (hash : Int) (index : Nat)
  | waitEnqueue
deriving DecidableEq, Repr

/-- Parser computations: a result (or error) together with the list of
callbacks delivered to the engine so far.  Callbacks are side effects on the
engine: they are retained even when an exception aborts the parse. -/
abbrev PM (α : Type) : Type := Except PErr α × List Cb

def pmPure {α : Type} (a : α) : PM α := (Except.ok a, [])

def pmBind {α β : Type} (x : PM α) (f : α → PM β) : PM β :=
  match x with
  | (Except.ok a, t) => ((f a).1, t ++ (f a).2)
  | (Except.error e, t) => (Except.error e, t)

instance : Monad PM where
  pure := pmPure
  bind := pmBind

def emit (c : Cb) : PM Unit := (Except.ok (), [c])

def perr {α : Type} (e : PErr) : PM α := (Except.error e, [])

/-- Sequencing a parser body over the elements of a rapidjson array
(the `for (auto itr = v.Begin(); itr != v.End(); ++itr)` loops). -/
def pmForM {α : Type} (f : α → PM Unit) : List α → PM Unit
  | [] => pmPure ()
  | x :: xs => pmBind (f x) (fun _ => pmForM f xs)

def jarrE (v : JValue) : PM (List JValue) :=
  (match v with
   | .arr l => Except.ok l
   | _ => Except.error .structuralMismatch, [])

/-- `v.GetUint()` / `GetUint64()` on an array element. -/
def jnumE (v : JValue) : PM Int :=
  (match v with
   | .num n => Except.ok n
   | _ => Except.error .structuralMismatch, [])

/-- `obj["k"].GetUint()` / `GetUint64()` / `GetFloat()`: member must exist and
be a number. -/
def getNum (j : JValue) (k : String) : PM Int :=
  (match j.member? k with
   | some (.num n) => Except.ok n
   | _ => Except.error .structuralMismatch, [])

/-- `obj["k"].GetString()`. -/
def getStr (j : JValue) (k : String) : PM String :=
  (match j.member? k with
   | some (.str s) => Except.ok s
   | _ => Except.error .structuralMismatch, [])

/-- `StateReplayer::parse_immutable_samplers` (`vulkan_pipeline_cache.cpp:528-544`):
each entry is read with `GetUint64`; an index greater than
`replayed_samplers.size()` throws; otherwise the handle is resolved (elided).
`numSamplers` is the size of `replayed_samplers` at this point. -/
def parseImmutableSamplers (numSamplers : Nat) (samplers : List JValue) : PM Unit :=
  pmForM (fun v => do
    let idx ← jnumE v
    if idx > (numSamplers : Int) then perr .danglingReference else pmPure ()) samplers

/-- `StateReplayer::parse_descriptor_set_bindings` (`vulkan_pipeline_cache.cpp:546-561`). -/
def parseDescriptorSetBindings (numSamplers : Nat) (bindings : List JValue) : PM Unit :=
  pmForM (fun b => do
    let _ ← getNum b "binding"
    let _ ← getNum b "descriptorCount"
    let _ ← getNum b "descriptorType"
    let _ ← getNum b "stageFlags"
    match b.member? "immutableSamplers" with
    | some v => do parseImmutableSamplers numSamplers (← jarrE v)
    | none => pmPure ()) bindings

/-- `StateReplayer::parse_push_constant_ranges` (`vulkan_pipeline_cache.cpp:563-577`). -/
def parsePushConstantRanges (ranges : List JValue) : PM Unit :=
  pmForM (fun o => do
    let _ ← getNum o "stageFlags"
    let _ ← getNum o "offset"
    let _ ← getNum o "size"
    pmPure ()) ranges

/-- `StateReplayer::parse_set_layouts` (`vulkan_pipeline_cache.cpp:579-596`):
an index greater than `replayed_descriptor_set_layouts.size()` throws. -/
def parseSetLayouts (numDSLayouts : Nat) (layouts : List JValue) : PM Unit :=
  pmForM (fun v => do
    let idx ← jnumE v
    if idx > (numDSLayouts : Int) then perr .danglingReference else pmPure ()) layouts

/-- Loop body of `StateReplayer::parse_shader_modules`
(`vulkan_pipeline_cache.cpp:598-616`); `decode_base64` of the `code` string is
elided (only the string read is modelled). -/
def smLoop : Nat → List JValue → PM Unit
  | _, [] => pmPure ()
  | index, obj :: rest => do
      let _ ← getNum obj "flags"
      let _ ← getNum obj "codeSize"
      let _ ← getStr obj "code"
      let h ← getNum obj "hash"
      emit (.createShaderModule h index)
      smLoop (index + 1) rest

def parseShaderModules (modules : List JValue) : PM Unit := do
  emit (.setNumShaderModules modules.length)
  smLoop 0 modules
  emit .waitEnqueue

/-- Loop body of `StateReplayer::parse_samplers`
(`vulkan_pipeline_cache.cpp:676-708`); the fields are read in source order. -/
def sampLoop : Nat → List JValue → PM Unit
  | _, [] => pmPure ()
  | index, obj :: rest => do
      let _ ← getNum obj "addressModeU"
      let _ ← getNum obj "addressModeV"
      let _ ← getNum obj "addressModeW"
      let _ ← getNum obj "anisotropyEnable"
      let _ ← getNum obj "borderColor"
      let _ ← getNum obj "compareEnable"
      let _ ← getNum obj "compareOp"
      let _ ← getNum obj "flags"
      let _ ← getNum obj "magFilter"
      let _ ← getNum obj "minFilter"
      let _ ← getNum obj "maxAnisotropy"
      let _ ← getNum obj "mipmapMode"
      let _ ← getNum obj "maxLod"
      let _ ← getNum obj "minLod"
      let _ ← getNum obj "mipLodBias"
      let h ← getNum obj "hash"
      emit (.createSampler h index)
      sampLoop (index + 1) rest

def parseSamplers (samplers : List JValue) : PM Unit := do
  emit (.setNumSamplers samplers.length)
  sampLoop 0 samplers
  emit .waitEnqueue

/-- Loop body of `StateReplayer::parse_descriptor_set_layouts`
(`vulkan_pipeline_cache.cpp:650-674`). -/
def dslLoop (numSamplers : Nat) : Nat → List JValue → PM Unit
  | _, [] => pmPure ()
  | index, obj :: rest => do
      let _ ← getNum obj "flags"
      (match obj.member? "bindings" with
       | some v => do parseDescriptorSetBindings numSamplers (← jarrE v)
       | none => pmPure ())
      let h ← getNum obj "hash"
      emit (.createDescriptorSetLayout h index)
      dslLoop numSamplers (index + 1) rest

def parseDescriptorSetLayouts (numSamplers : Nat) (layouts : List JValue) : PM Unit := do
  emit (.setNumDescriptorSetLayouts layouts.length)
  dslLoop numSamplers 0 layouts
  emit .waitEnqueue

/-- Loop body of `StateReplayer::parse_pipeline_layouts`
(`vulkan_pipeline_cache.cpp:618-648`). -/
def plLoop (numDSLayouts : Nat) : Nat → List JValue → PM Unit
  | _, [] => pmPure ()
  | index, obj :: rest => do
      let _ ← getNum obj "flags"
      (match obj.member? "pushConstantRanges" with
       | some v => do parsePushConstantRanges (← jarrE v)
       | none => pmPure ())
      (match obj.member? "setLayouts" with
       | some v => do parseSetLayouts numDSLayouts (← jarrE v)
       | none => pmPure ())
      let h ← getNum obj "hash"
      emit (.createPipelineLayout h index)
      plLoop numDSLayouts (index + 1) rest

def parsePipelineLayouts (numDSLayouts : Nat) (layouts : List JValue) : PM Unit := do
  emit (.setNumPipelineLayouts layouts.length)
  plLoop numDSLayouts 0 layouts
  emit .waitEnqueue

/-- `StateReplayer::parse_render_pass_attachments` (`vulkan_pipeline_cache.cpp:710-730`). -/
def parseRenderPassAttachments (attachments : List JValue) : PM Unit :=
  pmForM (fun o => do
    let _ ← getNum o "flags"
    let _ ← getNum o "finalLayout"
    let _ ← getNum o "initialLayout"
    let _ ← getNum o "format"
    let _ ← getNum o "loadOp"
    let _ ← getNum o "storeOp"
    let _ ← getNum o "stencilLoadOp"
    let _ ← getNum o "stencilStoreOp"
    let _ ← getNum o "samples"
    pmPure ()) attachments

/-- `StateReplayer::parse_render_pass_dependencies` (`vulkan_pipeline_cache.cpp:732-750`). -/
def parseRenderPassDependencies (dependencies : List JValue) : PM Unit :=
  pmForM (fun o => do
    let _ ← getNum o "dependencyFlags"
    let _ ← getNum o "dstAccessMask"
    let _ ← getNum o "srcAccessMask"
    let _ ← getNum o "dstStageMask"
    let _ ← getNum o "srcStageMask"
    let _ ← getNum o "srcSubpass"
    let _ ← getNum o "dstSubpass"
    pmPure ()) dependencies

/-- `StateReplayer::parse_attachment` / `parse_attachments`
(`vulkan_pipeline_cache.cpp:752-772`). -/
def parseAttachmentRefs (refs : List JValue) : PM Unit :=
  pmForM (fun o => do
    let _ ← getNum o "attachment"
    let _ ← getNum o "layout"
    pmPure ()) refs

/-- `StateReplayer::parse_render_pass_subpasses` (`vulkan_pipeline_cache.cpp:774-793`):
only `depthStencilAttachment`, `resolveAttachments` and `inputAttachments`
members are read (the source never reads `colorAttachments` or
`preserveAttachments` here). -/
def parseRenderPassSubpasses (subpasses : List JValue) : PM Unit :=
  pmForM (fun o => do
    let _ ← getNum o "flags"
    (match o.member? "depthStencilAttachment" with
     | some v => do
         let _ ← getNum v "attachment"
         let _ ← getNum v "layout"
         pmPure ()
     | none => pmPure ())
    (match o.member? "resolveAttachments" with
     | some v => do parseAttachmentRefs (← jarrE v)
     | none => pmPure ())
    (match o.member? "inputAttachments" with
     | some v => do parseAttachmentRefs (← jarrE v)
     | none => pmPure ())) subpasses

/-- Loop body of `StateReplayer::parse_render_passes`
(`vulkan_pipeline_cache.cpp:795-832`). -/
def rpLoop : Nat → List JValue → PM Unit
  | _, [] => pmPure ()
  | index, obj :: rest => do
      let _ ← getNum obj "flags"
      (match obj.member? "attachments" with
       | some v => do parseRenderPassAttachments (← jarrE v)
       | none => pmPure ())
      (match obj.member? "dependencies" with
       | some v => do parseRenderPassDependencies (← jarrE v)
       | none => pmPure ())
      (match obj.member? "subpasses" with
       | some v => do parseRenderPassSubpasses (← jarrE v)
       | none => pmPure ())
      let h ← getNum obj "hash"
      emit (.createRenderPass h index)
      rpLoop (index + 1) rest

def parseRenderPasses (passes : List JValue) : PM Unit := do
  emit (.setNumRenderPasses passes.length)
  rpLoop 0 passes
  emit .waitEnqueue

/-- Number of elements under a top-level array member: the size of the
`replayed_<kind>` vector after that kind's parse step ran (0 when the member is
absent; the non-array case only arises after the parse already failed). -/
def arrCount (doc : JValue) (key : String) : Nat :=
  match doc.member? key with
  | some (.arr l) => l.length
  | _ => 0

/-- The `shaderModules` step of `StateReplayer::parse`
(`vulkan_pipeline_cache.cpp:843-846`). -/
def smStep (doc : JValue) : PM Unit :=
  match doc.member? "shaderModules" with
  | some v => do parseShaderModules (← jarrE v)
  | none => emit (.setNumShaderModules 0)

/-- The `samplers` step of `StateReplayer::parse` (`vulkan_pipeline_cache.cpp:848-851`). -/
def sampStep (doc : JValue) : PM Unit :=
  match doc.member? "samplers" with
  | some v => do parseSamplers (← jarrE v)
  | none => emit (.setNumSamplers 0)

/-- The `descriptorSetLayouts` step of `StateReplayer::parse`
(`vulkan_pipeline_cache.cpp:853-856`).  Note the key it reads. -/
def dslStep (doc : JValue) : PM Unit :=
  match doc.member? "descriptorSetLayouts" with
  | some v => do parseDescriptorSetLayouts (arrCount doc "samplers") (← jarrE v)
  | none => emit (.setNumDescriptorSetLayouts 0)

/-- The `pipelineLayouts` step of `StateReplayer::parse`
(`vulkan_pipeline_cache.cpp:858-861`). -/
def plStep (doc : JValue) : PM Unit :=
  match doc.member? "pipelineLayouts" with
  | some v => do parsePipelineLayouts (arrCount doc "descriptorSetLayouts") (← jarrE v)
  | none => emit (.setNumPipelineLayouts 0)

/-- The `renderPasses` step of `StateReplayer::parse`
(`vulkan_pipeline_cache.cpp:863-866`). -/
def rpStep (doc : JValue) : PM Unit :=
  match doc.member? "renderPasses" with
  | some v => do parseRenderPasses (← jarrE v)
  | none => emit (.setNumRenderPasses 0)

/-- Body of the `try` block of `StateReplayer::parse`
(`vulkan_pipeline_cache.cpp:841-867`): the five kind steps in source order. -/
def parseDocBody (doc : JValue) : PM Unit := do
  smStep doc
  sampStep doc
  dslStep doc
  plStep doc
  rpStep doc

/-- `StateReplayer::parse` (`vulkan_pipeline_cache.cpp:834-874`).  The input is
the result of `doc.Parse` (rapidjson, external): `none` models a JSON parse
error (`HasParseError`), `some doc` the parsed document.  Returns the success
flag and the callbacks that were delivered to the engine. -/
def stateReplayerParse (docOpt : Option JValue) : Bool × List Cb :=
  match docOpt with
  | none => (false, [])
  | some doc =>
      match parseDocBody doc with
      | (Except.ok _, t) => (true, t)
      | (Except.error _, t) => (false, t)

/- =====================  StateRecorder::serialize  ===================== -/

/-- Modelled from the spec: `b64_encode` comes from `b64.h`, which is not under
`src/`; spec §4.4/§6 say shader-module code and specialization payloads are
"Base64-encoded", so a standard RFC 4648 Base64 encoder over bytes is used. -/
def b64Table : List Char :=
  "ABCDEFGHIJKLMNOPQRSTUVWXYZabcdefghijklmnopqrstuvwxyz0123456789+/".toList

def b64Digit (n : Nat) : Char := b64Table.getD n 'A'

def encodeBase64Chars : List Nat → List Char
  | [] => []
  | [a] => [b64Digit (a / 4), b64Digit (a % 4 * 16), '=', '=']
  | [a, b] => [b64Digit (a / 4), b64Digit (a % 4 * 16 + b / 16), b64Digit (b % 16 * 4), '=']
  | a :: b :: c :: rest =>
      [b64Digit (a / 4), b64Digit (a % 4 * 16 + b / 16),
       b64Digit (b % 16 * 4 + c / 64), b64Digit (c % 64)] ++ encodeBase64Chars rest

def encodeBase64 (bytes : List Nat) : String := String.mk (encodeBase64Chars bytes)

/- Recorded per-kind create infos (the deep-copied structs held by the
   recorder; handle fields already contain `index + 1` values). -/

structure VkSamplerCreateInfo where
  flags : Nat
  minFilter : Nat
  magFilter : Nat
  maxAnisotropy : Nat
  compareOp : Nat
  anisotropyEnable : Nat
  mipmapMode : Nat
  addressModeU : Nat
  addressModeV : Nat
  addressModeW : Nat
  borderColor : Nat
  unnormalizedCoordinates : Nat
  compareEnable : Nat
  mipLodBias : Nat
  minLod : Nat
  maxLod : Nat
deriving DecidableEq

structure DSLBindingRec where
  descriptorType : Nat
  descriptorCount : Nat
  stageFlags : Nat
  binding : Nat
  immutableSamplers : Option (List Nat)
deriving DecidableEq

structure DSLRecInfo where
  flags : Nat
  bindings : List DSLBindingRec
deriving DecidableEq

structure VkPushConstantRange where
  stageFlags : Nat
  offset : Nat
  size : Nat
deriving DecidableEq

structure PipelineLayoutRecInfo where
  flags : Nat
  pushConstantRanges : List VkPushConstantRange
  setLayouts : List Nat
deriving DecidableEq

structure ShaderModuleRecInfo where
  flags : Nat
  code : List Nat
deriving DecidableEq

structure VkAttachmentDescription where
  flags : Nat
  format : Nat
  finalLayout : Nat
  initialLayout : Nat
  loadOp : Nat
  storeOp : Nat
  samples : Nat
  stencilLoadOp : Nat
  stencilStoreOp : Nat
deriving DecidableEq

structure VkSubpassDependency where
  dependencyFlags : Nat
  dstAccessMask : Nat
  srcAccessMask : Nat
  dstStageMask : Nat
  srcStageMask : Nat
  dstSubpass : Nat
  srcSubpass : Nat
deriving DecidableEq

structure VkAttachmentReference where
  attachment : Nat
  layout : Nat
deriving DecidableEq

structure VkSubpassDescription where
  flags : Nat
  pipelineBindPoint : Nat
  preserveAttachments : List Nat
  inputAttachments : List VkAttachmentReference
  colorAttachments : List VkAttachmentReference
  resolveAttachments : Option (List VkAttachmentReference)
  depthStencilAttachment : Option VkAttachmentReference
deriving DecidableEq

structure RenderPassRecInfo where
  flags : Nat
  attachments : List VkAttachmentDescription
  dependencies : List VkSubpassDependency
  subpasses : List VkSubpassDescription
deriving DecidableEq

structure ComputePipelineRecInfo where
  flags : Nat
  layout : Nat
  basePipelineHandle : Nat
  basePipelineIndex : Int
  stage : VkPipelineShaderStageCreateInfo
deriving DecidableEq

/-- The seven per-kind registries of the `StateRecorder`, each an ordered list
of (hash, deep-copied info). -/
structure RecorderState where
  samplers : List (Nat × VkSamplerCreateInfo)
  descriptor_sets : List (Nat × DSLRecInfo)
  pipeline_layouts : List (Nat × PipelineLayoutRecInfo)
  shader_modules : List (Nat × ShaderModuleRecInfo)
  render_passes : List (Nat × RenderPassRecInfo)
  compute_pipelines : List (Nat × ComputePipelineRecInfo)
  graphics_pipelines : List (Nat × VkGraphicsPipelineCreateInfo)

/-- Sampler element (`vulkan_pipeline_cache.cpp:1238-1259`).  Faithful to the
source: no `hash` member is emitted, and `addressModeV` / `addressModeW` are
serialized from `info.addressModeU` (lines 1250-1251). -/
def serializeSamplerInfo (info : VkSamplerCreateInfo) : JValue :=
  .obj [("flags", .num info.flags),
        ("minFilter", .num info.minFilter),
        ("magFilter", .num info.magFilter),
        ("maxAnisotropy", .num info.maxAnisotropy),
        ("compareOp", .num info.compareOp),
        ("anisotropyEnable", .num info.anisotropyEnable),
        ("mipmapMode", .num info.mipmapMode),
        ("addressModeU", .num info.addressModeU),
        ("addressModeV", .num info.addressModeU),
        ("addressModeW", .num info.addressModeU),
        ("borderColor", .num info.borderColor),
        ("unnormalizedCoordinates", .num info.unnormalizedCoordinates),
        ("compareEnable", .num info.compareEnable),
        ("mipLodBias", .num info.mipLodBias),
        ("minLod", .num info.minLod),
        ("maxLod", .num info.maxLod)]

/-- Pipeline-layout element (`vulkan_pipeline_cache.cpp:1293-1316`). -/
def serializePipelineLayout (e : Nat × PipelineLayoutRecInfo) : JValue :=
  .obj [("hash", .num e.1),
        ("flags", .num e.2.flags),
        ("pushConstantRanges", .arr (e.2.pushConstantRanges.map (fun r =>
           .obj [("stageFlags", .num r.stageFlags), ("size", .num r.size),
                 ("offset", .num r.offset)]))),
        ("setLayouts", .arr (e.2.setLayouts.map (fun h => .num h)))]

/-- Shader-module element (`vulkan_pipeline_cache.cpp:1319-1327`): hash, flags
and Base64 code; note the source emits no `codeSize` member. -/
def serializeShaderModule (e : Nat × ShaderModuleRecInfo) : JValue :=
  .obj [("hash", .num e.1),
        ("flags", .num e.2.flags),
        ("code", .str (encodeBase64 e.2.code))]

/-- Specialization-info sub-object (`vulkan_pipeline_cache.cpp:1459-1477` and
`1702-1720`). -/
def serializeSpecInfo (sp : VkSpecializationInfo) : JValue :=
  .obj [("dataSize", .num sp.data.length),
        ("code", .str (encodeBase64 sp.data)),
        ("mapEntries", .arr (sp.mapEntries.map (fun e =>
          .obj [("offset", .num e.offset), ("size", .num e.size),
                ("constantID", .num e.constantID)])))]

/-- Shader-stage sub-object of a pipeline (`vulkan_pipeline_cache.cpp:1454-1478`
for compute, `1693-1723` for graphics). -/
def serializeStage (s : VkPipelineShaderStageCreateInfo) : JValue :=
  .obj ([("flags", .num s.flags),
         ("stage", .num s.stage),
         ("module", .num s.module),
         ("name", .str s.name)] ++
        (match s.specializationInfo with
         | some sp => [("specializationInfo", serializeSpecInfo sp)]
         | none => []))

/-- Graphics-stage sub-object: same fields but emitted in the graphics-loop
order `flags, name, module, stage` (`vulkan_pipeline_cache.cpp:1697-1701`). -/
def serializeGraphicsStage (s : VkPipelineShaderStageCreateInfo) : JValue :=
  .obj ([("flags", .num s.flags),
         ("name", .str s.name),
         ("module", .num s.module),
         ("stage", .num s.stage)] ++
        (match s.specializationInfo with
         | some sp => [("specializationInfo", serializeSpecInfo sp)]
         | none => []))

/-- Compute-pipeline element (`vulkan_pipeline_cache.cpp:1445-1481`). -/
def serializeComputePipeline (e : Nat × ComputePipelineRecInfo) : JValue :=
  .obj [("hash", .num e.1),
        ("flags", .num e.2.flags),
        ("layout", .num e.2.layout),
        ("basePipelineHandle", .num e.2.basePipelineHandle),
        ("basePipelineIndex", .num e.2.basePipelineIndex),
        ("stage", serializeStage e.2.stage)]

/-- Graphics-pipeline element (`vulkan_pipeline_cache.cpp:1484-1727`),
reproducing the source's member order and its slips: the tessellation flags
member is named `alloc` (line 1499) and the color-blend `attachments` array
stays empty because the built objects are never pushed (lines 1607-1621). -/
def serializeGraphicsPipeline (e : Nat × VkGraphicsPipelineCreateInfo) : JValue :=
  .obj ([("hash", .num e.1),
         ("flags", .num e.2.flags),
         ("basePipelineHandle", .num e.2.basePipelineHandle),
         ("basePipelineIndex", .num e.2.basePipelineIndex),
         ("layout", .num e.2.layout),
         ("renderPass", .num e.2.renderPass),
         ("subpass", .num e.2.subpass)] ++
        (match e.2.pTessellationState with
         | some t => [("tessellationState",
             .obj [("alloc", .num t.flags),
                   ("patchControlPoints", .num t.patchControlPoints)])]
         | none => []) ++
        (match e.2.pDynamicState with
         | some d => [("dynamicState",
             .obj [("flags", .num d.flags),
                   ("dynamicState", .arr (d.dynamicStates.map (fun v => .num v)))])]
         | none => []) ++
        (match e.2.pMultisampleState with
         | some m => [("multisampleState",
             .obj ([("flags", .num m.flags),
                    ("rasterizationSamples", .num m.rasterizationSamples),
                    ("sampleShadingEnable", .num m.sampleShadingEnable),
                    ("minSampleShading", .num m.minSampleShading),
                    ("alphaToOneEnable", .num m.alphaToOneEnable),
                    ("alphaToCoverageEnable", .num m.alphaToCoverageEnable)] ++
                   (match m.sampleMask with
                    | some mask => [("sampleMask", .arr
                        ((List.range ((m.rasterizationSamples + 31) / 32)).map
                          (fun i => .num (mask.getD i 0))))]
                    | none => [])))]
         | none => []) ++
        (match e.2.pVertexInputState with
         | some v => [("vertexInputState",
             .obj [("flags", .num v.flags),
                   ("attributes", .arr (v.attributes.map (fun a =>
                      .obj [("location", .num a.location), ("binding", .num a.binding),
                            ("offset", .num a.offset), ("format", .num a.format)]))),
                   ("bindings", .arr (v.bindings.map (fun b =>
                      .obj [("binding", .num b.binding), ("stride", .num b.stride),
                            ("inputRate", .num b.inputRate)])))])]
         | none => []) ++
        (match e.2.pRasterizationState with
         | some r => [("rasterizationState",
             .obj [("flags", .num r.flags),
                   ("depthBiasConstantFactor", .num r.depthBiasConstantFactor),
                   ("depthBiasSlopeFactor", .num r.depthBiasSlopeFactor),
                   ("depthBiasClamp", .num r.depthBiasClamp),
                   ("depthBiasEnable", .num r.depthBiasEnable),
                   ("depthClampEnable", .num r.depthClampEnable),
                   ("polygonMode", .num r.polygonMode),
                   ("rasterizerDiscardEnable", .num r.rasterizerDiscardEnable),
                   ("frontFace", .num r.frontFace),
                   ("lineWidth", .num r.lineWidth),
                   ("cullMode", .num r.cullMode)])]
         | none => []) ++
        (match e.2.pInputAssemblyState with
         | some i => [("inputAssemblyState",
             .obj [("flags", .num i.flags), ("topology", .num i.topology),
                   ("primitiveRestartEnable", .num i.primitiveRestartEnable)])]
         | none => []) ++
        (match e.2.pColorBlendState with
         | some c => [("colorBlendState",
             .obj [("flags", .num c.flags),
                   ("logicOp", .num c.logicOp),
                   ("logicOpEnable", .num c.logicOpEnable),
                   ("blendConstants", .arr [.num c.blendConst0, .num c.blendConst1,
                                            .num c.blendConst2, .num c.blendConst3]),
                   ("attachments", .arr [])])]
         | none => []) ++
        (match e.2.pViewportState with
         | some v => [("viewportState",
             .obj ([("flags", .num v.flags)] ++
                   (match v.viewports with
                    | some vps => [("viewports", .arr (vps.map (fun w =>
                        .obj [("x", .num w.x), ("y", .num w.y),
                              ("width", .num w.width), ("height", .num w.height),
                              ("minDepth", .num w.minDepth), ("maxDepth", .num w.maxDepth)])))]
                    | none => []) ++
                   (match v.scissors with
                    | some scs => [("scissors", .arr (scs.map (fun s =>
                        .obj [("x", .num s.offsetX), ("y", .num s.offsetY),
                              ("width", .num s.extentWidth), ("height", .num s.extentHeight)])))]
                    | none => [])))]
         | none => []) ++
        (match e.2.pDepthStencilState with
         | some d => [("depthStencilState",
             .obj [("flags", .num d.flags),
                   ("stencilTestEnable", .num d.stencilTestEnable),
                   ("maxDepthBounds", .num d.maxDepthBounds),
                   ("minDepthBounds", .num d.minDepthBounds),
                   ("depthBoundsTestEnable", .num d.depthBoundsTestEnable),
                   ("depthWriteEnable", .num d.depthWriteEnable),
                   ("depthTestEnable", .num d.depthTestEnable),
                   ("depthCompareOp", .num d.depthCompareOp),
                   ("front", serializeStencilState d.front),
                   ("back", serializeStencilState d.back)])]
         | none => []) ++
        [("stages", .arr (e.2.stages.map serializeGraphicsStage))])
where
  serializeStencilState (st : VkStencilOpState) : JValue :=
    .obj [("compareOp", .num st.compareOp), ("writeMask", .num st.writeMask),
          ("reference", .num st.reference), ("compareMask", .num st.compareMask),
          ("passOp", .num st.passOp), ("failOp", .num st.failOp),
          ("depthFailOp", .num st.depthFailOp)]

/-- `StateRecorder::serialize` (`vulkan_pipeline_cache.cpp:1232-1734`).
Two registries are serialized as permanently empty arrays, faithful to the
source: for `setLayouts` (line 1263) and `renderPasses` (line 1331) the
rapidjson `Value` is handed to `doc.AddMember` BEFORE the element loop runs;
`AddMember` has move semantics, so the document keeps the empty array and the
subsequently built elements are pushed into a moved-from value and lost.
(The claims below only evaluate `serialize` on states where those two
registries are empty, so the moved-from `PushBack` — an assertion failure in a
debug build — is not reached.) -/
def stateRecorderSerialize (st : RecorderState) : JValue :=
  .obj [("samplers", .arr (st.samplers.map (fun e => serializeSamplerInfo e.2))),
        ("setLayouts", .arr []),
        ("pipelineLayouts", .arr (st.pipeline_layouts.map serializePipelineLayout)),
        ("shaderModules", .arr (st.shader_modules.map serializeShaderModule)),
        ("renderPasses", .arr []),
        ("computePipelines", .arr (st.compute_pipelines.map serializeComputePipeline)),
        ("graphicsPipelines", .arr (st.graphics_pipelines.map serializeGraphicsPipeline))]

/- =============  StateRecorder::copy_descriptor_set_layout  ============= -/

/-- A recording-time descriptor-set-layout binding as passed by the caller:
`pImmutableSamplers` is a pointer, modelled as an index into `SamplerMem`
(`none` = null pointer). -/
structure DSLBindingPtr where
  binding : Nat
  descriptorType : Nat
  descriptorCount : Nat
  stageFlags : Nat
  immutableSamplers : Option Nat
deriving DecidableEq

structure DSLCreateInfoPtr where
  flags : Nat
  bindings : List DSLBindingPtr
deriving DecidableEq

/-- Addressable memory holding the caller's immutable-sampler arrays (each
array is a list of `VkSampler` handle values). -/
abbrev SamplerMem := List (List Nat)

def vkDescriptorTypeSampler : Nat := 0
def vkDescriptorTypeCombinedImageSampler : Nat := 1

/-- `StateRecorder::copy_descriptor_set_layout`
(`vulkan_pipeline_cache.cpp:1096-1115`), with memory made explicit.
The binding array itself is duplicated by value (`copy(info.pBindings, ...)`),
which in this model is the unchanged `bindings` list — each copied binding
still holds the caller's `pImmutableSamplers` pointer.  Then, for binding
index `i` whose descriptor type is `SAMPLER` or `COMBINED_IMAGE_SAMPLER` and
whose sampler pointer is non-null, the source executes
`const_cast<VkSampler*>(b.pImmutableSamplers)[i] =
  (VkSampler)(sampler_to_index[b.pImmutableSamplers[i]] + 1)`,
i.e. it writes element `i` (the BINDING index) of the CALLER's sampler array,
reading the old handle at that same position.  `s2i` models the
`sampler_to_index` map (`unordered_map::operator[]`, defaulting to 0 for
unknown handles).  Returns the copied info and the updated memory. -/
def copyDescriptorSetLayout (s2i : Nat → Nat) (mem : SamplerMem)
    (info : DSLCreateInfoPtr) : DSLCreateInfoPtr × SamplerMem :=
  let mem2 := info.bindings.enum.foldl
    (fun m p =>
      match p.2.immutableSamplers with
      | some ptr =>
          if p.2.descriptorType = vkDescriptorTypeSampler ∨
             p.2.descriptorType = vkDescriptorTypeCombinedImageSampler then
            m.set ptr ((m.getD ptr []).set p.1 (s2i ((m.getD ptr []).getD p.1 0) + 1))
          else m
      | none => m)
    mem
  ({ flags := info.flags, bindings := info.bindings }, mem2)

/-- `StateRecorder::register_descriptor_set_layout`
(`vulkan_pipeline_cache.cpp:972-977`): appends `(hash, copy)` to the registry
and returns the new entry's index. -/
def registerDescriptorSetLayout (s2i : Nat → Nat)
    (registry : List (Nat × DSLCreateInfoPtr)) (mem : SamplerMem)
    (hash : Nat) (info : DSLCreateInfoPtr) :
    List (Nat × DSLCreateInfoPtr) × SamplerMem × Nat :=
  let c := copyDescriptorSetLayout s2i mem info
  (registry ++ [(hash, c.1)], c.2, registry.length)

/- =====================  ScratchAllocator  ===================== -/

structure SABlock where
  size : Nat
  offset : Nat
deriving DecidableEq

/-- `ScratchAllocator::add_block` (`vulkan_pipeline_cache.cpp:900-905`). -/
def saAddBlock (blocks : List SABlock) (minimumSize : Nat) : List SABlock :=
  blocks ++ [{ size := if minimumSize < 64 * 1024 then 64 * 1024 else minimumSize, offset := 0 }]

/-- 64-bit bitwise complement `~a` of a `size_t`. -/
def not64 (a : Nat) : Nat := 2 ^ 64 - 1 - a % 2 ^ 64

/-- `ScratchAllocator::allocate_raw` (`vulkan_pipeline_cache.cpp:915-935`),
with the unbounded self-recursion made total by a fuel parameter: `none`
means the fuel ran out, i.e. the source would still be recursing after that
many self-calls.  On success returns the updated block list and the byte
offset of the returned pointer inside the last block.
The source computes `offset = (block.offset + alignment - 1) & ~alignment`
and tests `required_size <= size` — both taken verbatim. -/
def allocateRaw : Nat → List SABlock → Nat → Nat → Option (List SABlock × Nat)
  | 0, _, _, _ => none
  | fuel + 1, blocks0, size, alignment =>
      let blocks := if blocks0.isEmpty then saAddBlock blocks0 (size + alignment) else blocks0
      match blocks.getLast? with
      | none => none
      | some block =>
          let offset := Nat.land (block.offset + alignment - 1) (not64 alignment)
          let required := offset + size
          if required ≤ size then
            some (blocks.dropLast ++ [{ block with offset := required }], offset)
          else
            allocateRaw fuel (saAddBlock blocks (size + alignment)) size alignment

/- ================  Supervisor: ProcessProgress  ================ -/

/-- Supervisor-global state touched by `ProcessProgress::parse` and
`ProcessProgress::process_shutdown` (`Global::faulty_spirv_modules` and the
shared control block's counters; `hasControlBlock` is whether
`Global::control_block` is non-null). -/
structure MasterGlobals where
  faultySpirvModules : List Nat
  hasControlBlock : Bool
  bannedModules : Nat
  cleanProcessDeaths : Nat
  dirtyProcessDeaths : Nat
deriving DecidableEq

/-- Per-worker record (`struct ProcessProgress`,
`fossilize_replay_windows.hpp:67-91`); `timerArmed` models a live
`timer_handle`. -/
structure ProcessProgressRec where
  startGraphicsIndex : Nat
  startComputeIndex : Nat
  endGraphicsIndex : Nat
  endComputeIndex : Nat
  computeProgress : Int
  graphicsProgress : Int
  timerArmed : Bool
deriving DecidableEq

def isSpaceChar (c : Char) : Bool :=
  c = ' ' || c = Char.ofNat 9 || c = Char.ofNat 10 || c = Char.ofNat 11 ||
  c = Char.ofNat 12 || c = Char.ofNat 13

def isDigitChar (c : Char) : Bool := '0' ≤ c && c ≤ '9'

def isOctDigitChar (c : Char) : Bool := '0' ≤ c && c ≤ '7'

def isHexDigitChar (c : Char) : Bool :=
  isDigitChar c || ('a' ≤ c && c ≤ 'f') || ('A' ≤ c && c ≤ 'F')

/-- Numeric value of a digit character in bases up to 16. -/
def digitValue (c : Char) : Nat :=
  if 'a' ≤ c ∧ c ≤ 'f' then c.toNat - 87
  else if 'A' ≤ c ∧ c ≤ 'F' then c.toNat - 55
  else c.toNat - 48

def accumulateDigits (base : Nat) (cs : List Char) : Nat :=
  cs.foldl (fun a c => base * a + digitValue c) 0

/-- `LONG_MAX` / `LONG_MIN` on the target (Windows: `long` is 32-bit). -/
def longMaxVal : Int := 2147483647
def longMinVal : Int := -2147483648

def clampLong (n : Nat) (neg : Bool) : Int :=
  if neg then (if (n : Int) > 2147483648 then longMinVal else -(n : Int))
  else (if (n : Int) > longMaxVal then longMaxVal else (n : Int))

/-- Optional sign handling of `strtol`: returns (negative?, remaining). -/
def strtolSign (cs1 : List Char) : Bool × List Char :=
  match cs1 with
  | c :: rest =>
      if c = '-' then (true, rest)
      else if c = '+' then (false, rest)
      else (false, cs1)
  | [] => (false, [])

/-- `strtol(p, nullptr, 0)` over the characters of `p`: skip whitespace, an
optional sign, then base auto-detection — `0x`/`0X` means hexadecimal, a
leading `0` means OCTAL, anything else decimal; out-of-range values clamp to
`LONG_MAX`/`LONG_MIN`. -/
def strtolBase0 (cs0 : List Char) : Int :=
  let cs1 := cs0.dropWhile isSpaceChar
  let sc := strtolSign cs1
  let n :=
    match sc.2 with
    | c :: d :: rest =>
        if c = '0' then
          if d = 'x' ∨ d = 'X' then accumulateDigits 16 (rest.takeWhile isHexDigitChar)
          else accumulateDigits 8 ((d :: rest).takeWhile isOctDigitChar)
        else accumulateDigits 10 ((c :: d :: rest).takeWhile isDigitChar)
    | _ => accumulateDigits 10 (sc.2.takeWhile isDigitChar)
  clampLong n sc.1

/-- `strtoull(p, nullptr, 16)` over the characters of `p` (no clamping needed
for the 16-hex-digit module hashes). -/
def strtoullBase16 (cs0 : List Char) : Nat :=
  let cs := cs0.dropWhile isSpaceChar
  accumulateDigits 16 (cs.takeWhile isHexDigitChar)

/-- `unordered_set::insert`. -/
def insertHash (h : Nat) (l : List Nat) : List Nat :=
  if l.contains h then l else l ++ [h]

def cmdMatches (pat : List Char) (cmd : List Char) : Bool := pat.isPrefixOf cmd

/-- `ProcessProgress::parse` (`fossilize_replay_windows.hpp:109-155`):
dispatch on the message's leading keyword via `strncmp`; `GRAPHICS n` and
`COMPUTE n` record progress via `int(strtol(cmd + 8/7, nullptr, 0))`;
`MODULE x` inserts the hex hash into the global blacklist and bumps
`banned_modules` (the ring-buffer write is elided); anything else is logged
and dropped. -/
def processProgressParse (pp : ProcessProgressRec) (g : MasterGlobals)
    (cmd : List Char) : ProcessProgressRec × MasterGlobals :=
  if cmdMatches "CRASH".toList cmd then
    ({ pp with timerArmed := true }, g)
  else if cmdMatches "GRAPHICS".toList cmd then
    ({ pp with graphicsProgress := strtolBase0 (cmd.drop 8) }, g)
  else if cmdMatches "COMPUTE".toList cmd then
    ({ pp with computeProgress := strtolBase0 (cmd.drop 7) }, g)
  else if cmdMatches "MODULE".toList cmd then
    (pp, { g with
           faultySpirvModules := insertHash (strtoullBase16 (cmd.drop 6)) g.faultySpirvModules,
           bannedModules := if g.hasControlBlock then g.bannedModules + 1 else g.bannedModules })
  else (pp, g)

/-- `ProcessProgress::process_shutdown` (`fossilize_replay_windows.hpp:190-255`)
after the pipe has been drained and the child reaped with exit code `code`.
Returns the updated record, the updated globals, and the boolean result
(`true` = the master should call `start_child_process` again). -/
def processShutdown (pp : ProcessProgressRec) (code : Nat) (g : MasterGlobals) :
    ProcessProgressRec × MasterGlobals × Bool :=
  if code = 0 then (pp, g, false)
  else if pp.graphicsProgress < 0 ∨ pp.computeProgress < 0 then
    (pp,
     (if g.hasControlBlock then
        { g with dirtyProcessDeaths := g.dirtyProcessDeaths + 1 } else g),
     false)
  else
    let g2 := if g.hasControlBlock then
        { g with cleanProcessDeaths := g.cleanProcessDeaths + 1 } else g
    let pp2 := { pp with startGraphicsIndex := pp.graphicsProgress.toNat,
                         startComputeIndex := pp.computeProgress.toNat }
    if pp2.startGraphicsIndex ≥ pp2.endGraphicsIndex ∧
       pp2.startComputeIndex ≥ pp2.endComputeIndex then
      (pp2, g2, false)
    else (pp2, g2, true)

/-- The observable inputs `ProcessProgress::start_child_process`
(`fossilize_replay_windows.hpp:296-484`) hands to the fresh worker: the
`--graphics-pipeline-range` and `--compute-pipeline-range` command-line pairs
and the blacklist written to the child's stdin by
`send_faulty_modules_and_close`. -/
def startChildCommand (pp : ProcessProgressRec) (g : MasterGlobals) :
    (Nat × Nat) × (Nat × Nat) × List Nat :=
  ((pp.startGraphicsIndex, pp.endGraphicsIndex),
   (pp.startComputeIndex, pp.endComputeIndex),
   g.faultySpirvModules)

/- =============  Formal statements of the claims under test  ============= -/

/-- Claim C3 as stated: EVERY one of the nine optional fixed-function blocks
contributes exactly one zero-u32 token when absent, and a present block
contributes its flags first, then its fields. -/
def c3ClaimProp : Prop :=
  (dynTokens none = [Token.tu32 0]) ∧
  (∀ a b c d, dsTokens a b c d none = [Token.tu32 0]) ∧
  (iaTokens none = [Token.tu32 0]) ∧
  (∀ a b, rsTokens a b none = [Token.tu32 0]) ∧
  (msTokens none = [Token.tu32 0]) ∧
  (∀ a b, vpTokens a b none = [Token.tu32 0]) ∧
  (viTokens none = [Token.tu32 0]) ∧
  (∀ a, cbTokens a none = [Token.tu32 0]) ∧
  (tessTokens none = [Token.tu32 0]) ∧
  (∀ d, ∃ rest, dynTokens (some d) = Token.tu32 d.flags :: rest) ∧
  (∀ a b c d e, ∃ rest, dsTokens a b c d (some e) = Token.tu32 e.flags :: rest) ∧
  (∀ ia, ∃ rest, iaTokens (some ia) = Token.tu32 ia.flags :: rest) ∧
  (∀ a b rs, ∃ rest, rsTokens a b (some rs) = Token.tu32 rs.flags :: rest) ∧
  (∀ ms, ∃ rest, msTokens (some ms) = Token.tu32 ms.flags :: rest) ∧
  (∀ a b vp, ∃ rest, vpTokens a b (some vp) = Token.tu32 vp.flags :: rest) ∧
  (∀ vi, ∃ rest, viTokens (some vi) = Token.tu32 vi.flags :: rest) ∧
  (∀ a cb, ∃ rest, cbTokens a (some cb) = Token.tu32 cb.flags :: rest) ∧
  (∀ t, ∃ rest, tessTokens (some t) = Token.tu32 t.flags :: rest)

/-- The attachment predicate of claim C4: blending enabled and any of the four
factor slots in the whole constant-color/constant-alpha family, INCLUDING the
`ONE_MINUS` variants. -/
def claimUsesConstantFactor (a : VkPipelineColorBlendAttachmentState) : Bool :=
  a.blendEnable ≠ 0 &&
  ([vkBlendFactorConstantColor, vkBlendFactorOneMinusConstantColor,
    vkBlendFactorConstantAlpha, vkBlendFactorOneMinusConstantAlpha].any (fun f =>
      a.dstAlphaBlendFactor = f || a.srcAlphaBlendFactor = f ||
      a.dstColorBlendFactor = f || a.srcColorBlendFactor = f))

/-- Claim C4 as stated: the four blend constants are fed to the hash iff some
attachment satisfies `claimUsesConstantFactor` and blend constants are not
dynamic. -/
def c4ClaimProp : Prop :=
  ∀ (dyn : Bool) (b : VkPipelineColorBlendStateCreateInfo),
    cbTokens dyn (some b) =
      [Token.tu32 b.flags, Token.tu32 b.attachments.length,
       Token.tu32 b.logicOpEnable, Token.tu32 b.logicOp] ++
      b.attachments.flatMap attTokens ++
      (if b.attachments.any claimUsesConstantFactor && !dyn then blendConstTokens b else [])

/-- `setFirstViewportWidth ci w`: the pipeline `ci` with `pViewports[0].width`
replaced by `w` (identity when there is no viewport). -/
def setFirstViewportWidth (ci : VkGraphicsPipelineCreateInfo) (w : Nat) :
    VkGraphicsPipelineCreateInfo :=
  { ci with pViewportState :=
      match ci.pViewportState with
      | some vs => some { vs with viewports :=
          match vs.viewports with
          | some (v :: rest) => some ({ v with width := w } :: rest)
          | o => o }
      | none => none }

/-- One group of the callback sequence claimed by C2 (spec §4.4 pseudocode
`set_num_<kind>(n); for each elem: enqueue_create_<kind>(hash, index, ...);
wait_enqueue();`), keyed by the spec §6 document key for the kind. -/
def c2ClaimGroup (doc : JValue) (key : String)
    (mkSetNum : Nat → Cb) (mkCreate : Int → Nat → Cb) : List Cb :=
  match doc.member? key with
  | some (.arr l) =>
      mkSetNum l.length ::
        ((l.enum.map (fun p => mkCreate (hashOf p.2) p.1)) ++ [Cb.waitEnqueue])
  | _ => [mkSetNum 0, Cb.waitEnqueue]
where
  hashOf : JValue → Int
    | j => match j.member? "hash" with
           | some (.num n) => n
           | _ => 0

/-- The full callback sequence claimed by C2: the seven kinds in the order
samplers, set-layouts, pipeline-layouts, shader-modules, render-passes,
compute-pipelines, graphics-pipelines. -/
def c2ClaimedTrace (doc : JValue) : List Cb :=
  c2ClaimGroup doc "samplers" Cb.setNumSamplers Cb.createSampler ++
  c2ClaimGroup doc "setLayouts" Cb.setNumDescriptorSetLayouts Cb.createDescriptorSetLayout ++
  c2ClaimGroup doc "pipelineLayouts" Cb.setNumPipelineLayouts Cb.createPipelineLayout ++
  c2ClaimGroup doc "shaderModules" Cb.setNumShaderModules Cb.createShaderModule ++
  c2ClaimGroup doc "renderPasses" Cb.setNumRenderPasses Cb.createRenderPass ++
  c2ClaimGroup doc "computePipelines" Cb.setNumComputePipelines Cb.createComputePipeline ++
  c2ClaimGroup doc "graphicsPipelines" Cb.setNumGraphicsPipelines Cb.createGraphicsPipelines

/-- Claim C2 as stated: whenever `parse` succeeds, the callbacks it delivered
are exactly the claimed seven-kind sequence. -/
def c2ClaimProp : Prop :=
  ∀ doc : JValue, (stateReplayerParse (some doc)).1 = true →
    (stateReplayerParse (some doc)).2 = c2ClaimedTrace doc

/-- Claim C6 as stated: whenever `parse` returns failure, no callback has been
delivered to the engine. -/
def c6ClaimProp : Prop :=
  ∀ docOpt : Option JValue, (stateReplayerParse docOpt).1 = false →
    (stateReplayerParse docOpt).2 = []

/-- Decimal value of a digit string (the interpretation claim C8 asserts). -/
def decimalValue (cs : List Char) : Nat :=
  cs.foldl (fun a c => 10 * a + (c.toNat - 48)) 0

/-- Claim C8 as stated: for EVERY decimal digit string `n` (leading zeros
included), `GRAPHICS n` records the worker's graphics progress as the decimal
value of `n`. -/
def c8ClaimProp : Prop :=
  ∀ (pp : ProcessProgressRec) (g : MasterGlobals) (s : List Char),
    s ≠ [] → s.all isDigitChar = true →
    (processProgressParse pp g ("GRAPHICS ".toList ++ s)).1.graphicsProgress =
      Int.ofNat (decimalValue s)

/- Classification of callbacks by entity kind (used for the C2 amendment). -/

def isShaderModuleCb : Cb → Bool
  | .setNumShaderModules _ => true
  | .createShaderModule _ _ => true
  | .waitEnqueue => true
  | _ => false

def isSamplerCb : Cb → Bool
  | .setNumSamplers _ => true
  | .createSampler _ _ => true
  | .waitEnqueue => true
  | _ => false

def isDSLCb : Cb → Bool
  | .setNumDescriptorSetLayouts _ => true
  | .createDescriptorSetLayout _ _ => true
  | .waitEnqueue => true
  | _ => false

def isPLCb : Cb → Bool
  | .setNumPipelineLayouts _ => true
  | .createPipelineLayout _ _ => true
  | .waitEnqueue => true
  | _ => false

def isRPCb : Cb → Bool
  | .setNumRenderPasses _ => true
  | .createRenderPass _ _ => true
  | .waitEnqueue => true
  | _ => false

/-- Compute- or graphics-pipeline callbacks (claimed by C2, never emitted by
the source parser). -/
def isPipelineCb : Cb → Bool
  | .setNumComputePipelines _ => true
  | .createComputePipeline _ _ => true
  | .setNumGraphicsPipelines _ => true
  | .createGraphicsPipelines _ _ => true
  | _ => false

/- ================  Concrete inputs used by the claims  ================ -/

def recZero : Recorder :=
  { graphicsPipelineHash := fun _ => 0, pipelineLayoutHash := fun _ => 0,
    renderPassHash := fun _ => 0, shaderModuleHash := fun _ => 0 }

def vpW : VkViewport :=
  { x := 0, y := 0, width := 0, height := 0, minDepth := 0, maxDepth := 0 }

def vpStateW : VkPipelineViewportStateCreateInfo :=
  { flags := 0, scissors := none, viewports := some [vpW] }

/-- A graphics pipeline with one viewport and a choice of dynamic-state
block. -/
def gpWith (dyn : Option VkPipelineDynamicStateCreateInfo) : VkGraphicsPipelineCreateInfo :=
  { flags := 0, basePipelineHandle := 0, basePipelineIndex := -1,
    layout := 1, renderPass := 1, subpass := 0, stages := [],
    pDynamicState := dyn, pDepthStencilState := none, pInputAssemblyState := none,
    pRasterizationState := none, pMultisampleState := none,
    pViewportState := some vpStateW, pVertexInputState := none,
    pColorBlendState := none, pTessellationState := none }

def gpDyn : VkGraphicsPipelineCreateInfo :=
  gpWith (some { flags := 0, dynamicStates := [vkDynamicStateViewport] })

def gpStat : VkGraphicsPipelineCreateInfo := gpWith none

/-- C4 counterexample input: one attachment with blending enabled whose source
color factor is `VK_BLEND_FACTOR_ONE_MINUS_CONSTANT_COLOR`. -/
def cbC4 : VkPipelineColorBlendStateCreateInfo :=
  { flags := 0, logicOpEnable := 0, logicOp := 0,
    attachments := [{ blendEnable := 1, colorWriteMask := 15, alphaBlendOp := 0,
                      colorBlendOp := 0, dstAlphaBlendFactor := 0,
                      srcAlphaBlendFactor := 0, dstColorBlendFactor := 0,
                      srcColorBlendFactor := vkBlendFactorOneMinusConstantColor }],
    blendConst0 := 1, blendConst1 := 2, blendConst2 := 3, blendConst3 := 4 }

/-- C1 failing input: a recorder holding exactly one compute pipeline. -/
def stageC1 : VkPipelineShaderStageCreateInfo :=
  { flags := 0, name := "main", stage := 32, module := 1, specializationInfo := none }

def computeC1 : ComputePipelineRecInfo :=
  { flags := 0, layout := 1, basePipelineHandle := 0, basePipelineIndex := -1,
    stage := stageC1 }

def recorderC1 : RecorderState :=
  { samplers := [], descriptor_sets := [], pipeline_layouts := [],
    shader_modules := [], render_passes := [],
    compute_pipelines := [(99, computeC1)], graphics_pipelines := [] }

/-- C6 counterexample input: a document whose descriptor-set-layout binding
references immutable sampler index 5 while no sampler exists. -/
def failDocC6 : JValue :=
  .obj [("descriptorSetLayouts", .arr [
    .obj [("flags", .num 0),
          ("bindings", .arr [
            .obj [("binding", .num 0), ("descriptorCount", .num 1),
                  ("descriptorType", .num 0), ("stageFlags", .num 1),
                  ("immutableSamplers", .arr [.num 5])]]),
          ("hash", .num 2)]])]

/- Concrete supervisor states. -/

def ppRespawn : ProcessProgressRec :=
  { startGraphicsIndex := 0, startComputeIndex := 0,
    endGraphicsIndex := 3, endComputeIndex := 2,
    computeProgress := 0, graphicsProgress := 1, timerArmed := false }

def ppEarly : ProcessProgressRec :=
  { startGraphicsIndex := 0, startComputeIndex := 0,
    endGraphicsIndex := 3, endComputeIndex := 2,
    computeProgress := -1, graphicsProgress := -1, timerArmed := false }

def gC7 : MasterGlobals :=
  { faultySpirvModules := [3735928559], hasControlBlock := true,
    bannedModules := 1, cleanProcessDeaths := 0, dirtyProcessDeaths := 0 }

def ppC8 : ProcessProgressRec :=
  { startGraphicsIndex := 0, startComputeIndex := 0,
    endGraphicsIndex := 3, endComputeIndex := 2,
    computeProgress := -1, graphicsProgress := -1, timerArmed := false }

def gC8 : MasterGlobals :=
  { faultySpirvModules := [], hasControlBlock := false,
    bannedModules := 0, cleanProcessDeaths := 0, dirtyProcessDeaths := 0 }

/- Concrete C9 inputs: two samplers with handles 100 and 200 registered at
   indices 0 and 1; one SAMPLER-type binding with descriptorCount 2 whose
   immutable-sampler array is the caller's array at address 0. -/

def s2iC9 : Nat → Nat := fun h => if h = 100 then 0 else if h = 200 then 1 else 0

def memC9 : SamplerMem := [[100, 200]]

def infoC9 : DSLCreateInfoPtr :=
  { flags := 0,
    bindings := [{ binding := 0, descriptorType := vkDescriptorTypeSampler,
                   descriptorCount := 2, stageFlags := 1,
                   immutableSamplers := some 0 }] }

/- ========================  Theorems  ======================== -/

/-- C3, counterexample: the claim "every absent optional block contributes
exactly one zero-u32 token" is false — an absent multisample block contributes
no token at all (`vulkan_pipeline_cache.cpp:245-262` has no `else`
branch). -/
theorem c3_counterexample : ¬ c3ClaimProp := by
  intro h
  have hms := h.2.2.2.2.1
  simp [msTokens] at hms

/-- C3, amended: each absent optional block contributes exactly one zero-u32
token EXCEPT multisample, which contributes nothing; each present block
contributes its flags first and then its fields, EXCEPT the dynamic-state
block, which contributes its dynamicStateCount, then its flags, then its
entries. -/
theorem c3_block_encoding :
    (dynTokens none = [Token.tu32 0]) ∧
    (∀ a b c d, dsTokens a b c d none = [Token.tu32 0]) ∧
    (iaTokens none = [Token.tu32 0]) ∧
    (∀ a b, rsTokens a b none = [Token.tu32 0]) ∧
    (msTokens none = []) ∧
    (∀ a b, vpTokens a b none = [Token.tu32 0]) ∧
    (viTokens none = [Token.tu32 0]) ∧
    (∀ a, cbTokens a none = [Token.tu32 0]) ∧
    (tessTokens none = [Token.tu32 0]) ∧
    (∀ d, dynTokens (some d) =
       Token.tu32 d.dynamicStates.length :: Token.tu32 d.flags ::
         d.dynamicStates.map Token.tu32) ∧
    (∀ a b c d e, ∃ rest, dsTokens a b c d (some e) = Token.tu32 e.flags :: rest) ∧
    (∀ ia, ∃ rest, iaTokens (some ia) = Token.tu32 ia.flags :: rest) ∧
    (∀ a b rs, ∃ rest, rsTokens a b (some rs) = Token.tu32 rs.flags :: rest) ∧
    (∀ ms, ∃ rest, msTokens (some ms) = Token.tu32 ms.flags :: rest) ∧
    (∀ a b vp, ∃ rest, vpTokens a b (some vp) = Token.tu32 vp.flags :: rest) ∧
    (∀ vi, ∃ rest, viTokens (some vi) = Token.tu32 vi.flags :: rest) ∧
    (∀ a cb, ∃ rest, cbTokens a (some cb) = Token.tu32 cb.flags :: rest) ∧
    (∀ t, ∃ rest, tessTokens (some t) = Token.tu32 t.flags :: rest) := by
  refine ⟨rfl, fun a b c d => rfl, rfl, fun a b => rfl, rfl, fun a b => rfl, rfl,
    fun a => rfl, rfl, fun d => rfl, fun a b c d e => ⟨_, rfl⟩, fun ia => ⟨_, rfl⟩,
    fun a b rs => ⟨_, rfl⟩, fun ms => ⟨_, rfl⟩, fun a b vp => ⟨_, rfl⟩,
    fun vi => ⟨_, rfl⟩, fun a cb => ⟨_, rfl⟩, fun t => ⟨_, rfl⟩⟩

/-- C4, counterexample: the claim is false for an attachment using
`VK_BLEND_FACTOR_ONE_MINUS_CONSTANT_COLOR` with blending enabled and no
dynamic blend constants — the source does not feed the blend constants then
(its check at `vulkan_pipeline_cache.cpp:345-352` covers only
`CONSTANT_ALPHA` and `CONSTANT_COLOR`), while the claim requires them. -/
theorem c4_counterexample : ¬ c4ClaimProp :=
  fun h => absurd (h false cbC4) (by decide)

def countF32 (l : List Token) : Nat :=
  l.countP (fun t => match t with | .tf32 _ => true | _ => false)

theorem countF32_attTokens (a : VkPipelineColorBlendAttachmentState) :
    countF32 (attTokens a) = 0 := by
  by_cases h : a.blendEnable = 0 <;> simp [attTokens, h, countF32]

theorem countF32_flatMap_attTokens (atts : List VkPipelineColorBlendAttachmentState) :
    countF32 (atts.flatMap attTokens) = 0 := by
  induction atts with
  | nil => rfl
  | cons a rest ih =>
      have ha := countF32_attTokens a
      simp only [List.flatMap_cons, countF32, List.countP_append] at ha ih ⊢
      omega

/-- C4, amended: the four blend-constant floats appear in the color-blend hash
tokens iff some attachment with blending enabled uses `CONSTANT_ALPHA` or
`CONSTANT_COLOR` (the `ONE_MINUS` variants do NOT count) in one of its four
factor slots, and blend constants are not dynamic. -/
theorem blend_constants_hashed_iff (dyn : Bool) (b : VkPipelineColorBlendStateCreateInfo) :
    (∃ front, cbTokens dyn (some b) = front ++ blendConstTokens b) ↔
      (needBlendConstants b.attachments = true ∧ dyn = false) := by
  constructor
  · rintro ⟨front, hfront⟩
    have hcount : countF32 (cbTokens dyn (some b)) = countF32 front + 4 := by
      rw [hfront]
      simp [countF32, List.countP_append, blendConstTokens]
    by_cases hc : (needBlendConstants b.attachments && !dyn) = true
    · have h12 : needBlendConstants b.attachments = true ∧ (!dyn) = true := by
        constructor <;> [exact (Bool.and_elim_left hc); exact (Bool.and_elim_right hc)]
      exact ⟨h12.1, by simpa using h12.2⟩
    · exfalso
      have hcf : (needBlendConstants b.attachments && !dyn) = false :=
        Bool.eq_false_iff.mpr hc
      have hflat := countF32_flatMap_attTokens b.attachments
      have hz : countF32 (cbTokens dyn (some b)) = 0 := by
        simp only [countF32] at hflat
        simp [cbTokens, hcf, countF32, List.countP_append, hflat]
      omega
  · rintro ⟨hn, hd⟩
    subst hd
    refine ⟨[Token.tu32 b.flags, Token.tu32 b.attachments.length,
             Token.tu32 b.logicOpEnable, Token.tu32 b.logicOp] ++
            b.attachments.flatMap attTokens, ?_⟩
    simp [cbTokens, hn]

/-- C9: evaluating `register_descriptor_set_layout` on a concrete input shows
the code-bug: the copied binding still points at the CALLER's immutable-sampler
array (`immutableSamplers = some 0`, no new array is allocated — the memory
still holds exactly one array), the caller's array has been mutated in place,
and only element 0 (the binding's index) was rewritten to `index + 1` while
element 1 still holds the raw handle 200. -/
theorem c9_copy_mutates_caller :
    copyDescriptorSetLayout s2iC9 memC9 infoC9 = (infoC9, [[1, 200]]) ∧
    [[1, 200]] ≠ memC9 ∧
    registerDescriptorSetLayout s2iC9 [] memC9 7 infoC9 = ([(7, infoC9)], [[1, 200]], 0) :=
  ⟨by decide, by decide, by decide⟩

theorem saAddBlock_getLast (blocks : List SABlock) (m : Nat) :
    ∀ b ∈ (saAddBlock blocks m).getLast?, b.offset = 0 := by
  intro b hb
  rw [show saAddBlock blocks m =
        blocks ++ [{ size := if m < 64 * 1024 then 64 * 1024 else m, offset := 0 }] from rfl,
      List.getLast?_concat] at hb
  simp at hb
  subst hb
  rfl

theorem allocateRaw_four_none :
    ∀ (fuel : Nat) (blocks : List SABlock),
      (∀ b ∈ blocks.getLast?, b.offset = 0) → allocateRaw fuel blocks 4 4 = none := by
  intro fuel
  induction fuel with
  | zero => intro blocks _; rfl
  | succ n ih =>
      intro blocks h
      have hland : Nat.land (0 + 4 - 1) (not64 4) = 3 := by decide
      cases blocks with
      | nil =>
          show allocateRaw (n + 1) [] 4 4 = none
          have hstep : allocateRaw (n + 1) [] 4 4 =
              allocateRaw n (saAddBlock (saAddBlock [] 8) 8) 4 4 := by
            simp [allocateRaw, saAddBlock, hland]
          rw [hstep]
          exact ih _ (saAddBlock_getLast _ _)
      | cons x xs =>
          have hne : ((x :: xs : List SABlock).isEmpty) = false := rfl
          obtain ⟨b, hb⟩ : ∃ b, (x :: xs : List SABlock).getLast? = some b :=
            ⟨(x :: xs).getLast (by simp), List.getLast?_eq_getLast _ _⟩
          have hoff : b.offset = 0 := h b (by rw [hb]; exact rfl)
          have hstep : allocateRaw (n + 1) (x :: xs) 4 4 =
              allocateRaw n (saAddBlock (x :: xs) 8) 4 4 := by
            simp only [allocateRaw, hne, Bool.false_eq_true, if_false, hb]
            rw [hoff]
            simp [hland, saAddBlock]
          rw [hstep]
          exact ih _ (saAddBlock_getLast _ _)

/-- C10: `ScratchAllocator::allocate_raw` does NOT terminate on the positive
power-of-two request `size = 4`, `alignment = 4` starting from a fresh
allocator: however much fuel the recursion is given, it is still recursing
(each round appends a fresh block and recurses, because the source computes the
aligned offset with `& ~alignment` instead of `& ~(alignment - 1)` and tests
`required_size <= size` against the request size instead of the block size). -/
theorem scratch_allocate_raw_diverges (fuel : Nat) : allocateRaw fuel [] 4 4 = none :=
  allocateRaw_four_none fuel [] (by simp)

/-- C7: classification of a worker exit by `process_shutdown`
(`fossilize_replay_windows.hpp:190-255`): exit code 0 retires the worker
untouched; a non-zero code with no progress marker ever observed increments
`dirty_process_deaths` and does not respawn; a non-zero code with both
progress markers observed bumps `clean_process_deaths` and asks for a respawn
over `[graphics_progress, end_graphics) × [compute_progress, end_compute)`
with the current global blacklist — unless both remaining ranges are empty, in
which case there is no respawn. -/
theorem process_shutdown_classification (pp : ProcessProgressRec) (g : MasterGlobals)
    (code : Nat) (gp cp : Nat) :
    (processShutdown pp 0 g = (pp, g, false)) ∧
    (code ≠ 0 → pp.graphicsProgress = -1 → pp.computeProgress = -1 →
      g.hasControlBlock = true →
      processShutdown pp code g =
        (pp, { g with dirtyProcessDeaths := g.dirtyProcessDeaths + 1 }, false)) ∧
    (code ≠ 0 → pp.graphicsProgress = (gp : Int) → pp.computeProgress = (cp : Int) →
      g.hasControlBlock = true →
      ¬(gp ≥ pp.endGraphicsIndex ∧ cp ≥ pp.endComputeIndex) →
      processShutdown pp code g =
        ({ pp with startGraphicsIndex := gp, startComputeIndex := cp },
         { g with cleanProcessDeaths := g.cleanProcessDeaths + 1 }, true) ∧
      startChildCommand { pp with startGraphicsIndex := gp, startComputeIndex := cp } g =
        ((gp, pp.endGraphicsIndex), (cp, pp.endComputeIndex), g.faultySpirvModules)) ∧
    (code ≠ 0 → pp.graphicsProgress = (gp : Int) → pp.computeProgress = (cp : Int) →
      gp ≥ pp.endGraphicsIndex → cp ≥ pp.endComputeIndex →
      (processShutdown pp code g).2.2 = false) := by
  refine ⟨?_, ?_, ?_, ?_⟩
  · simp [processShutdown]
  · intro hcode hg hc hcb
    simp [processShutdown, hcode, hg, hc, hcb]
  · intro hcode hg hc hcb hrange
    constructor
    · simp [processShutdown, hcode, hg, hc, hcb, hrange]
    · rfl
  · intro hcode hg hc hge hce
    have h1 : ¬((gp : Int) < 0 ∨ (cp : Int) < 0) := by omega
    simp [processShutdown, hcode, hg, hc, h1, hge, hce]

/-- C7 witness: concrete evaluations discharging the hypotheses of
`process_shutdown_classification` — a crash at graphics 1 / compute 0 within
range [0,3)×[0,2) respawns over [1,3)×[0,2) with the current blacklist, and a
crash with no markers observed is an unrecoverable early crash. -/
theorem process_shutdown_classification_witness :
    (processShutdown ppRespawn 2 gC7 =
      ({ ppRespawn with startGraphicsIndex := 1, startComputeIndex := 0 },
       { gC7 with cleanProcessDeaths := 1 }, true) ∧
     startChildCommand { ppRespawn with startGraphicsIndex := 1, startComputeIndex := 0 } gC7 =
       ((1, 3), (0, 2), [3735928559])) ∧
    processShutdown ppEarly 2 gC7 = (ppEarly, { gC7 with dirtyProcessDeaths := 1 }, false) := by
  constructor
  · exact (process_shutdown_classification ppRespawn gC7 2 1 0).2.2.1
      (by decide) (by decide) (by decide) rfl (by decide)
  · exact (process_shutdown_classification ppEarly gC7 2 0 0).2.1
      (by decide) rfl rfl rfl

/-- C1: evaluating the round-trip at a concrete recorder state holding exactly
one compute pipeline (hash 99): `serialize` emits it under `computePipelines`,
but `parse` never reads that key — the engine receives only the five set_num /
wait callbacks below and never hears of the compute pipeline, so
`serialize ∘ parse` is not the identity on the seven registries. -/
theorem c1_roundtrip_loses_compute :
    stateReplayerParse (some (stateRecorderSerialize recorderC1)) =
      (true, [Cb.setNumShaderModules 0, Cb.waitEnqueue,
              Cb.setNumSamplers 0, Cb.waitEnqueue,
              Cb.setNumDescriptorSetLayouts 0,
              Cb.setNumPipelineLayouts 0, Cb.waitEnqueue,
              Cb.setNumRenderPasses 0, Cb.waitEnqueue]) ∧
    recorderC1.compute_pipelines.length = 1 :=
  ⟨by decide, rfl⟩

/-- C6, counterexample: a parse failure with side effects already delivered —
`failDocC6` makes `parse` return failure (immutable-sampler index 5 out of
range), yet three `set_num_*` callbacks were already delivered to the engine,
so "no side effects on the engine" is false. -/
theorem c6_counterexample : ¬ c6ClaimProp :=
  fun h => absurd (h (some failDocC6) (by decide)) (by decide)

/-- C6, amended: a malformed document (JSON parse error) produces failure with
no side effects on the engine; but a structural or dangling-reference failure
thrown mid-reconstruction leaves every callback delivered before the throw in
place — here `set_num_shader_modules(0)`, `set_num_samplers(0)` and
`set_num_descriptor_set_layouts(1)` have already been delivered when `parse`
returns failure. -/
theorem c6_side_effects :
    stateReplayerParse none = (false, []) ∧
    stateReplayerParse (some failDocC6) =
      (false, [Cb.setNumShaderModules 0, Cb.setNumSamplers 0,
               Cb.setNumDescriptorSetLayouts 1]) :=
  ⟨rfl, by decide⟩

/-- C5: hash stability under dynamic viewport.  For a pipeline whose viewport
state has at least one viewport: if `VK_DYNAMIC_STATE_VIEWPORT` is declared in
the dynamic-state list, the hash token stream is independent of
`pViewports[0].width`; if it is not declared, two different widths yield
different hash token streams (hence different hashes, by the spec §4.1 hasher
contract). -/
theorem dynamic_viewport_hash (r : Recorder) (ci : VkGraphicsPipelineCreateInfo)
    (vs : VkPipelineViewportStateCreateInfo) (v : VkViewport) (vrest : List VkViewport)
    (w1 w2 : Nat)
    (hvs : ci.pViewportState = some vs) (hview : vs.viewports = some (v :: vrest)) :
    (dynActive ci.pDynamicState vkDynamicStateViewport = true →
      computeHashGraphicsPipeline r (setFirstViewportWidth ci w1) =
        computeHashGraphicsPipeline r (setFirstViewportWidth ci w2)) ∧
    (dynActive ci.pDynamicState vkDynamicStateViewport = false → w1 ≠ w2 →
      computeHashGraphicsPipeline r (setFirstViewportWidth ci w1) ≠
        computeHashGraphicsPipeline r (setFirstViewportWidth ci w2)) := by
  have hset : ∀ w, setFirstViewportWidth ci w =
      { ci with
        pViewportState := some ({ vs with viewports := some ({ v with width := w } :: vrest) }) } := by
    intro w
    simp [setFirstViewportWidth, hvs, hview]
  have hch : ∀ X, computeHashGraphicsPipeline r { ci with pViewportState := X } =
      gpBaseTokens r ci ++
      dynTokens ci.pDynamicState ++
      dsTokens (dynActive ci.pDynamicState vkDynamicStateDepthBounds)
        (dynActive ci.pDynamicState vkDynamicStateStencilCompareMask)
        (dynActive ci.pDynamicState vkDynamicStateStencilReference)
        (dynActive ci.pDynamicState vkDynamicStateStencilWriteMask) ci.pDepthStencilState ++
      iaTokens ci.pInputAssemblyState ++
      rsTokens (dynActive ci.pDynamicState vkDynamicStateDepthBias)
        (dynActive ci.pDynamicState vkDynamicStateLineWidth) ci.pRasterizationState ++
      msTokens ci.pMultisampleState ++
      vpTokens (dynActive ci.pDynamicState vkDynamicStateScissor)
        (dynActive ci.pDynamicState vkDynamicStateViewport) X ++
      viTokens ci.pVertexInputState ++
      cbTokens (dynActive ci.pDynamicState vkDynamicStateBlendConstants) ci.pColorBlendState ++
      tessTokens ci.pTessellationState ++
      stagesTokens r ci.stages := fun _ => rfl
  constructor
  · intro hdyn
    rw [hset w1, hset w2, hch, hch]
    simp [vpTokens, hdyn]
  · intro hdyn hw heq
    rw [hset w1, hset w2, hch, hch] at heq
    simp only [vpTokens, viewportTokens, hdyn, Bool.not_false, if_true,
      List.flatMap_cons, List.append_assoc, List.cons_append, List.nil_append] at heq
    simp [List.append_right_inj, List.cons.injEq] at heq
    simp only [viewportTokens, List.cons.injEq, Token.tf32.injEq, and_true, true_and] at heq
    exact hw heq

/-- C5 witness: concrete pipelines with one viewport; with
`VK_DYNAMIC_STATE_VIEWPORT` declared, widths 5 and 6 hash identically; with
the dynamic declaration removed the hashes differ. -/
theorem dynamic_viewport_hash_witness :
    computeHashGraphicsPipeline recZero (setFirstViewportWidth gpDyn 5) =
      computeHashGraphicsPipeline recZero (setFirstViewportWidth gpDyn 6) ∧
    computeHashGraphicsPipeline recZero (setFirstViewportWidth gpStat 5) ≠
      computeHashGraphicsPipeline recZero (setFirstViewportWidth gpStat 6) := by
  constructor
  · exact (dynamic_viewport_hash recZero gpDyn vpStateW vpW [] 5 6 rfl rfl).1 (by decide)
  · exact (dynamic_viewport_hash recZero gpStat vpStateW vpW [] 5 6 rfl rfl).2 (by decide)
      (by decide)

/-- C8, counterexample: the framed message `GRAPHICS 010` is recorded as
progress 8, not 10 — `strtol(cmd + 8, nullptr, 0)` auto-detects OCTAL on a
leading zero, so the claim that every decimal digit string is recorded with
its decimal value regardless of leading zeros is false. -/
theorem c8_counterexample : ¬ c8ClaimProp :=
  fun h => absurd (h ppC8 gC8 ['0', '1', '0'] (by decide) (by decide)) (by decide)

theorem digit_not_space (c : Char) (h : isDigitChar c = true) : isSpaceChar c = false := by
  simp only [isDigitChar, Bool.and_eq_true, decide_eq_true_eq] at h
  have h0 := h.1
  simp only [isSpaceChar, Bool.or_eq_false_iff, decide_eq_false_iff_not]
  refine ⟨⟨⟨⟨⟨?_, ?_⟩, ?_⟩, ?_⟩, ?_⟩, ?_⟩ <;>
    (intro hc; subst hc; exact absurd h0 (by decide))

theorem digitValue_digit (c : Char) (h : isDigitChar c = true) :
    digitValue c = c.toNat - 48 := by
  simp only [isDigitChar, Bool.and_eq_true, decide_eq_true_eq] at h
  have hlo : ¬('a' ≤ c ∧ c ≤ 'f') := by
    rintro ⟨ha, _⟩
    exact absurd (le_trans ha h.2) (by decide)
  have hhi : ¬('A' ≤ c ∧ c ≤ 'F') := by
    rintro ⟨ha, _⟩
    exact absurd (le_trans ha h.2) (by decide)
  simp [digitValue, hlo, hhi]

theorem takeWhile_of_all (p : Char → Bool) :
    ∀ l : List Char, l.all p = true → l.takeWhile p = l := by
  intro l
  induction l with
  | nil => intro _; rfl
  | cons c t ih =>
      intro h
      simp only [List.all_cons, Bool.and_eq_true] at h
      simp [List.takeWhile_cons, h.1, ih h.2]

theorem accumulateDigits_ten :
    ∀ (s : List Char) (a : Nat), s.all isDigitChar = true →
      s.foldl (fun a c => 10 * a + digitValue c) a =
        s.foldl (fun a c => 10 * a + (c.toNat - 48)) a := by
  intro s
  induction s with
  | nil => intro a _; rfl
  | cons c t ih =>
      intro a h
      simp only [List.all_cons, Bool.and_eq_true] at h
      simp only [List.foldl_cons]
      rw [digitValue_digit c h.1]
      exact ih _ h.2

theorem clampLong_of_le (n : Nat) (h : n ≤ 2147483647) : clampLong n false = (n : Int) := by
  have hng : ¬((n : Int) > longMaxVal) := by simp only [longMaxVal]; omega
  simp [clampLong, hng]

/-- `strtol` base-0 evaluation of `" n"` for a decimal digit string `n`
without a leading zero and within `long` range: the decimal value. -/
theorem strtol_plain_decimal (s : List Char) (h1 : s ≠ [])
    (h2 : s.all isDigitChar = true) (h3 : s.head? ≠ some '0')
    (h4 : decimalValue s ≤ 2147483647) :
    strtolBase0 (' ' :: s) = (decimalValue s : Int) := by
  obtain ⟨c, t, rfl⟩ : ∃ c t, s = c :: t := by
    cases s with
    | nil => exact absurd rfl h1
    | cons c t => exact ⟨c, t, rfl⟩
  have hcd : isDigitChar c = true := by
    simp only [List.all_cons, Bool.and_eq_true] at h2
    exact h2.1
  have hcsp : isSpaceChar c = false := digit_not_space c hcd
  have hdw : (' ' :: c :: t).dropWhile isSpaceChar = c :: t := by
    have hsp : isSpaceChar ' ' = true := rfl
    simp [List.dropWhile_cons, hsp, hcsp]
  have hcm : ¬(c = '-') := fun hc => by subst hc; exact absurd hcd (by decide)
  have hcp : ¬(c = '+') := fun hc => by subst hc; exact absurd hcd (by decide)
  have hc0 : ¬(c = '0') := fun hc => h3 (by subst hc; rfl)
  have hsign : strtolSign (c :: t) = (false, c :: t) := by
    simp [strtolSign, hcm, hcp]
  have hacc : accumulateDigits 10 (c :: t) = decimalValue (c :: t) :=
    accumulateDigits_ten (c :: t) 0 h2
  cases t with
  | nil =>
      simp only [strtolBase0, hdw, hsign]
      show clampLong (accumulateDigits 10 ([c].takeWhile isDigitChar)) false =
        (decimalValue [c] : Int)
      rw [takeWhile_of_all _ _ h2, hacc]
      exact clampLong_of_le _ h4
  | cons d t2 =>
      simp only [strtolBase0, hdw, hsign]
      show clampLong
          (if c = '0' then
            if d = 'x' ∨ d = 'X' then accumulateDigits 16 (t2.takeWhile isHexDigitChar)
            else accumulateDigits 8 ((d :: t2).takeWhile isOctDigitChar)
          else accumulateDigits 10 ((c :: d :: t2).takeWhile isDigitChar)) false =
        (decimalValue (c :: d :: t2) : Int)
      rw [if_neg hc0, takeWhile_of_all _ _ h2, hacc]
      exact clampLong_of_le _ h4

/-- C8, amended: the supervisor records `GRAPHICS n` via
`strtol(cmd + 8, nullptr, 0)` — base auto-detection, so `0x` means hex and a
leading `0` means octal; a decimal digit string without a leading zero and
within `long` range is recorded at its decimal value (as all worker-produced
`%u` messages within range are). -/
theorem graphics_progress_strtol (pp : ProcessProgressRec) (g : MasterGlobals)
    (s : List Char) (h1 : s ≠ []) (h2 : s.all isDigitChar = true)
    (h3 : s.head? ≠ some '0') (h4 : decimalValue s ≤ 2147483647) :
    (processProgressParse pp g ("GRAPHICS ".toList ++ s)).1.graphicsProgress =
      (decimalValue s : Int) := by
  have hcrash : cmdMatches "CRASH".toList ("GRAPHICS ".toList ++ s) = false := by
    simp [cmdMatches, List.isPrefixOf]
  have hgfx : cmdMatches "GRAPHICS".toList ("GRAPHICS ".toList ++ s) = true := by
    simp [cmdMatches, List.isPrefixOf]
  have hdrop : ("GRAPHICS ".toList ++ s).drop 8 = ' ' :: s := rfl
  simp only [processProgressParse, hcrash, Bool.false_eq_true, if_false, hgfx, if_true, hdrop]
  exact strtol_plain_decimal s h1 h2 h3 h4

/-- C8 witness: `GRAPHICS 123` records progress 123. -/
theorem graphics_progress_strtol_witness :
    (processProgressParse ppC8 gC8 ("GRAPHICS ".toList ++ ['1', '2', '3'])).1.graphicsProgress =
      (decimalValue ['1', '2', '3'] : Int) :=
  graphics_progress_strtol ppC8 gC8 ['1', '2', '3'] (by decide) (by decide) (by decide) (by decide)

/-- C2, counterexample: on the empty document (which `parse` accepts), the
callbacks actually delivered (`set_num_shader_modules` first, five kinds, no
compute/graphics callbacks) are not the claimed seven-kind
samplers-first sequence. -/
theorem c2_counterexample : ¬ c2ClaimProp :=
  fun h => absurd (h (JValue.obj []) (by decide)) (by decide)

/- PM plumbing lemmas. -/

theorem pm_bind_def {α β : Type} (x : PM α) (f : α → PM β) : x >>= f = pmBind x f := rfl

theorem pmBind_all {α β : Type} {p : Cb → Bool} (x : PM α) (f : α → PM β)
    (hx : x.2.all p = true) (hf : ∀ a, (f a).2.all p = true) :
    (x >>= f).2.all p = true := by
  rcases x with ⟨r, t⟩
  cases r with
  | ok a => simp only [pm_bind_def, pmBind] at *; simp [List.all_append, hx, hf a]
  | error e => simpa [pm_bind_def, pmBind] using hx

theorem pmBind_trace_nil {α β : Type} (x : PM α) (f : α → PM β)
    (hx : x.2 = []) (hf : ∀ a, (f a).2 = []) : (x >>= f).2 = [] := by
  rcases x with ⟨r, t⟩
  cases r with
  | ok a => simp only [pm_bind_def, pmBind] at *; simp [hx, hf a]
  | error e => simpa [pm_bind_def, pmBind] using hx

theorem pmForM_trace_nil {α : Type} (f : α → PM Unit) (hf : ∀ a, (f a).2 = []) :
    ∀ xs : List α, (pmForM f xs).2 = [] := by
  intro xs
  induction xs with
  | nil => rfl
  | cons x xs ih =>
      show (pmBind (f x) fun _ => pmForM f xs).2 = []
      rcases hx : f x with ⟨r, t⟩
      have ht : t = [] := by have h2 := hf x; rw [hx] at h2; exact h2
      cases r <;> simp [pmBind, ht, ih]

theorem all_of_trace_nil {α : Type} {p : Cb → Bool} (x : PM α) (h : x.2 = []) :
    x.2.all p = true := by rw [h]; rfl

theorem ite_perr_trace (c : Prop) [Decidable c] (e : PErr) :
    ((if c then perr e else pmPure ()) : PM Unit).2 = [] := by
  split <;> rfl

/- The field-reading sub-parsers deliver no callbacks. -/

theorem parseImmutableSamplers_trace (n : Nat) (l : List JValue) :
    (parseImmutableSamplers n l).2 = [] := by
  refine pmForM_trace_nil _ (fun v => ?_) l
  exact pmBind_trace_nil _ _ rfl (fun idx => ite_perr_trace _ _)

theorem parseDescriptorSetBindings_trace (n : Nat) (l : List JValue) :
    (parseDescriptorSetBindings n l).2 = [] := by
  refine pmForM_trace_nil _ (fun b => ?_) l
  refine pmBind_trace_nil _ _ rfl (fun _ => ?_)
  refine pmBind_trace_nil _ _ rfl (fun _ => ?_)
  refine pmBind_trace_nil _ _ rfl (fun _ => ?_)
  refine pmBind_trace_nil _ _ rfl (fun _ => ?_)
  rcases hm : b.member? "immutableSamplers" with _ | v
  · rfl
  · exact pmBind_trace_nil _ _ rfl (fun l2 => parseImmutableSamplers_trace n l2)

theorem parsePushConstantRanges_trace (l : List JValue) :
    (parsePushConstantRanges l).2 = [] := by
  refine pmForM_trace_nil _ (fun o => ?_) l
  refine pmBind_trace_nil _ _ rfl (fun _ => ?_)
  refine pmBind_trace_nil _ _ rfl (fun _ => ?_)
  exact pmBind_trace_nil _ _ rfl (fun _ => rfl)

theorem parseSetLayouts_trace (n : Nat) (l : List JValue) :
    (parseSetLayouts n l).2 = [] := by
  refine pmForM_trace_nil _ (fun v => ?_) l
  exact pmBind_trace_nil _ _ rfl (fun idx => ite_perr_trace _ _)

theorem parseRenderPassAttachments_trace (l : List JValue) :
    (parseRenderPassAttachments l).2 = [] := by
  refine pmForM_trace_nil _ (fun o => ?_) l
  refine pmBind_trace_nil _ _ rfl (fun _ => ?_)
  refine pmBind_trace_nil _ _ rfl (fun _ => ?_)
  refine pmBind_trace_nil _ _ rfl (fun _ => ?_)
  refine pmBind_trace_nil _ _ rfl (fun _ => ?_)
  refine pmBind_trace_nil _ _ rfl (fun _ => ?_)
  refine pmBind_trace_nil _ _ rfl (fun _ => ?_)
  refine pmBind_trace_nil _ _ rfl (fun _ => ?_)
  refine pmBind_trace_nil _ _ rfl (fun _ => ?_)
  exact pmBind_trace_nil _ _ rfl (fun _ => rfl)

theorem parseRenderPassDependencies_trace (l : List JValue) :
    (parseRenderPassDependencies l).2 = [] := by
  refine pmForM_trace_nil _ (fun o => ?_) l
  refine pmBind_trace_nil _ _ rfl (fun _ => ?_)
  refine pmBind_trace_nil _ _ rfl (fun _ => ?_)
  refine pmBind_trace_nil _ _ rfl (fun _ => ?_)
  refine pmBind_trace_nil _ _ rfl (fun _ => ?_)
  refine pmBind_trace_nil _ _ rfl (fun _ => ?_)
  refine pmBind_trace_nil _ _ rfl (fun _ => ?_)
  exact pmBind_trace_nil _ _ rfl (fun _ => rfl)

theorem parseAttachmentRefs_trace (l : List JValue) :
    (parseAttachmentRefs l).2 = [] := by
  refine pmForM_trace_nil _ (fun o => ?_) l
  refine pmBind_trace_nil _ _ rfl (fun _ => ?_)
  exact pmBind_trace_nil _ _ rfl (fun _ => rfl)

theorem parseRenderPassSubpasses_trace (l : List JValue) :
    (parseRenderPassSubpasses l).2 = [] := by
  refine pmForM_trace_nil _ (fun o => ?_) l
  refine pmBind_trace_nil _ _ rfl (fun _ => ?_)
  refine pmBind_trace_nil _ _ ?_ (fun _ => ?_)
  · rcases hm : o.member? "depthStencilAttachment" with _ | v
    · rfl
    · refine pmBind_trace_nil _ _ rfl (fun _ => ?_)
      exact pmBind_trace_nil _ _ rfl (fun _ => rfl)
  · rcases hm : o.member? "resolveAttachments" with _ | v
    · refine pmBind_trace_nil _ _ rfl (fun _ => ?_)
      rcases hm2 : o.member? "inputAttachments" with _ | v2
      · rfl
      · exact pmBind_trace_nil _ _ rfl (fun l2 => parseAttachmentRefs_trace l2)
    · refine pmBind_trace_nil _ _ ?_ (fun _ => ?_)
      · exact pmBind_trace_nil _ _ rfl (fun l2 => parseAttachmentRefs_trace l2)
      · rcases hm2 : o.member? "inputAttachments" with _ | v2
        · rfl
        · exact pmBind_trace_nil _ _ rfl (fun l2 => parseAttachmentRefs_trace l2)

/- Each per-kind parser delivers only its own kind's callbacks. -/

theorem smLoop_all : ∀ (idx : Nat) (ms : List JValue),
    (smLoop idx ms).2.all isShaderModuleCb = true := by
  intro idx ms
  induction ms generalizing idx with
  | nil => rfl
  | cons m rest ih =>
      refine pmBind_all _ _ rfl fun _ => ?_
      refine pmBind_all _ _ rfl fun _ => ?_
      refine pmBind_all _ _ rfl fun _ => ?_
      refine pmBind_all _ _ rfl fun h2 => ?_
      exact pmBind_all _ _ rfl fun _ => ih (idx + 1)

theorem parseShaderModules_all (ms : List JValue) :
    (parseShaderModules ms).2.all isShaderModuleCb = true := by
  refine pmBind_all _ _ rfl fun _ => ?_
  exact pmBind_all _ _ (smLoop_all 0 ms) fun _ => rfl

theorem smStep_all (doc : JValue) : (smStep doc).2.all isShaderModuleCb = true := by
  unfold smStep
  rcases hm : doc.member? "shaderModules" with _ | v
  · rfl
  · exact pmBind_all _ _ rfl fun l => parseShaderModules_all l

theorem sampLoop_all : ∀ (idx : Nat) (ms : List JValue),
    (sampLoop idx ms).2.all isSamplerCb = true := by
  intro idx ms
  induction ms generalizing idx with
  | nil => rfl
  | cons m rest ih =>
      refine pmBind_all _ _ rfl fun _ => ?_
      refine pmBind_all _ _ rfl fun _ => ?_
      refine pmBind_all _ _ rfl fun _ => ?_
      refine pmBind_all _ _ rfl fun _ => ?_
      refine pmBind_all _ _ rfl fun _ => ?_
      refine pmBind_all _ _ rfl fun _ => ?_
      refine pmBind_all _ _ rfl fun _ => ?_
      refine pmBind_all _ _ rfl fun _ => ?_
      refine pmBind_all _ _ rfl fun _ => ?_
      refine pmBind_all _ _ rfl fun _ => ?_
      refine pmBind_all _ _ rfl fun _ => ?_
      refine pmBind_all _ _ rfl fun _ => ?_
      refine pmBind_all _ _ rfl fun _ => ?_
      refine pmBind_all _ _ rfl fun _ => ?_
      refine pmBind_all _ _ rfl fun _ => ?_
      refine pmBind_all _ _ rfl fun h2 => ?_
      exact pmBind_all _ _ rfl fun _ => ih (idx + 1)

theorem parseSamplers_all (ms : List JValue) :
    (parseSamplers ms).2.all isSamplerCb = true := by
  refine pmBind_all _ _ rfl fun _ => ?_
  exact pmBind_all _ _ (sampLoop_all 0 ms) fun _ => rfl

theorem sampStep_all (doc : JValue) : (sampStep doc).2.all isSamplerCb = true := by
  unfold sampStep
  rcases hm : doc.member? "samplers" with _ | v
  · rfl
  · exact pmBind_all _ _ rfl fun l => parseSamplers_all l

theorem dslLoop_all (n : Nat) : ∀ (idx : Nat) (ls : List JValue),
    (dslLoop n idx ls).2.all isDSLCb = true := by
  intro idx ls
  induction ls generalizing idx with
  | nil => rfl
  | cons obj rest ih =>
      refine pmBind_all _ _ rfl fun _ => ?_
      refine pmBind_all _ _ ?_ fun _ => ?_
      · rcases hm : obj.member? "bindings" with _ | v
        · rfl
        · exact all_of_trace_nil _
            (pmBind_trace_nil _ _ rfl (fun l2 => parseDescriptorSetBindings_trace n l2))
      · refine pmBind_all _ _ rfl fun h2 => ?_
        exact pmBind_all _ _ rfl fun _ => ih (idx + 1)

theorem parseDescriptorSetLayouts_all (n : Nat) (ls : List JValue) :
    (parseDescriptorSetLayouts n ls).2.all isDSLCb = true := by
  refine pmBind_all _ _ rfl fun _ => ?_
  exact pmBind_all _ _ (dslLoop_all n 0 ls) fun _ => rfl

theorem dslStep_all (doc : JValue) : (dslStep doc).2.all isDSLCb = true := by
  unfold dslStep
  rcases hm : doc.member? "descriptorSetLayouts" with _ | v
  · rfl
  · exact pmBind_all _ _ rfl fun l => parseDescriptorSetLayouts_all _ l

theorem plLoop_all (n : Nat) : ∀ (idx : Nat) (ls : List JValue),
    (plLoop n idx ls).2.all isPLCb = true := by
  intro idx ls
  induction ls generalizing idx with
  | nil => rfl
  | cons obj rest ih =>
      refine pmBind_all _ _ rfl fun _ => ?_
      refine pmBind_all _ _ ?_ fun _ => ?_
      · rcases hm : obj.member? "pushConstantRanges" with _ | v
        · rfl
        · exact all_of_trace_nil _
            (pmBind_trace_nil _ _ rfl (fun l2 => parsePushConstantRanges_trace l2))
      · refine pmBind_all _ _ ?_ fun _ => ?_
        · rcases hm : obj.member? "setLayouts" with _ | v
          · rfl
          · exact all_of_trace_nil _
              (pmBind_trace_nil _ _ rfl (fun l2 => parseSetLayouts_trace n l2))
        · refine pmBind_all _ _ rfl fun h2 => ?_
          exact pmBind_all _ _ rfl fun _ => ih (idx + 1)

theorem parsePipelineLayouts_all (n : Nat) (ls : List JValue) :
    (parsePipelineLayouts n ls).2.all isPLCb = true := by
  refine pmBind_all _ _ rfl fun _ => ?_
  exact pmBind_all _ _ (plLoop_all n 0 ls) fun _ => rfl

theorem plStep_all (doc : JValue) : (plStep doc).2.all isPLCb = true := by
  unfold plStep
  rcases hm : doc.member? "pipelineLayouts" with _ | v
  · rfl
  · exact pmBind_all _ _ rfl fun l => parsePipelineLayouts_all _ l

theorem rpLoop_all : ∀ (idx : Nat) (ls : List JValue),
    (rpLoop idx ls).2.all isRPCb = true := by
  intro idx ls
  induction ls generalizing idx with
  | nil => rfl
  | cons obj rest ih =>
      refine pmBind_all _ _ rfl fun _ => ?_
      refine pmBind_all _ _ ?_ fun _ => ?_
      · rcases hm : obj.member? "attachments" with _ | v
        · rfl
        · exact all_of_trace_nil _
            (pmBind_trace_nil _ _ rfl (fun l2 => parseRenderPassAttachments_trace l2))
      · refine pmBind_all _ _ ?_ fun _ => ?_
        · rcases hm : obj.member? "dependencies" with _ | v
          · rfl
          · exact all_of_trace_nil _
              (pmBind_trace_nil _ _ rfl (fun l2 => parseRenderPassDependencies_trace l2))
        · refine pmBind_all _ _ ?_ fun _ => ?_
          · rcases hm : obj.member? "subpasses" with _ | v
            · rfl
            · exact all_of_trace_nil _
                (pmBind_trace_nil _ _ rfl (fun l2 => parseRenderPassSubpasses_trace l2))
          · refine pmBind_all _ _ rfl fun h2 => ?_
            exact pmBind_all _ _ rfl fun _ => ih (idx + 1)

theorem parseRenderPasses_all (ls : List JValue) :
    (parseRenderPasses ls).2.all isRPCb = true := by
  refine pmBind_all _ _ rfl fun _ => ?_
  exact pmBind_all _ _ (rpLoop_all 0 ls) fun _ => rfl

theorem rpStep_all (doc : JValue) : (rpStep doc).2.all isRPCb = true := by
  unfold rpStep
  rcases hm : doc.member? "renderPasses" with _ | v
  · rfl
  · exact pmBind_all _ _ rfl fun l => parseRenderPasses_all l

theorem pmBind_fst_ok {α β : Type} (x : PM α) (f : α → PM β) (b : β)
    (h : (x >>= f).1 = Except.ok b) :
    ∃ a, x.1 = Except.ok a ∧ (f a).1 = Except.ok b ∧ (x >>= f).2 = x.2 ++ (f a).2 := by
  rcases x with ⟨r, t⟩
  cases r with
  | ok a => exact ⟨a, rfl, h, rfl⟩
  | error e => exact absurd h (by simp [pm_bind_def, pmBind])

/-- A computation of the shape `emit c0; x; emit w` that succeeded has `w` as
its last delivered callback. -/
theorem emit_bind_wait_last (c0 w : Cb) (x : PM Unit)
    (h : (pmBind (emit c0) (fun _ => pmBind x (fun _ => emit w))).1 = Except.ok ()) :
    (pmBind (emit c0) (fun _ => pmBind x (fun _ => emit w))).2.getLast? = some w := by
  rcases hx : x with ⟨r, t⟩
  rw [hx] at h
  cases r with
  | ok a =>
      show ([c0] ++ (t ++ [w])).getLast? = some w
      rw [← List.append_assoc]
      exact List.getLast?_concat _
  | error e => exact absurd h (by simp [pmBind, emit])

theorem smStep_wait (doc : JValue) (h : (smStep doc).1 = Except.ok ())
    (hm : (doc.member? "shaderModules").isSome = true) :
    (smStep doc).2.getLast? = some Cb.waitEnqueue := by
  unfold smStep at h ⊢
  rcases hv : doc.member? "shaderModules" with _ | v
  · rw [hv] at hm; exact absurd hm (by decide)
  · rw [hv] at h
    cases v with
    | arr l =>
        have h2 : (parseShaderModules l).1 = Except.ok () := h
        show (([] : List Cb) ++ (parseShaderModules l).2).getLast? = some Cb.waitEnqueue
        rw [List.nil_append]
        exact emit_bind_wait_last _ _ _ h2
    | num n => exact absurd h (by simp [pm_bind_def, pmBind, jarrE])
    | str s2 => exact absurd h (by simp [pm_bind_def, pmBind, jarrE])
    | obj fs => exact absurd h (by simp [pm_bind_def, pmBind, jarrE])

theorem sampStep_wait (doc : JValue) (h : (sampStep doc).1 = Except.ok ())
    (hm : (doc.member? "samplers").isSome = true) :
    (sampStep doc).2.getLast? = some Cb.waitEnqueue := by
  unfold sampStep at h ⊢
  rcases hv : doc.member? "samplers" with _ | v
  · rw [hv] at hm; exact absurd hm (by decide)
  · rw [hv] at h
    cases v with
    | arr l =>
        have h2 : (parseSamplers l).1 = Except.ok () := h
        show (([] : List Cb) ++ (parseSamplers l).2).getLast? = some Cb.waitEnqueue
        rw [List.nil_append]
        exact emit_bind_wait_last _ _ _ h2
    | num n => exact absurd h (by simp [pm_bind_def, pmBind, jarrE])
    | str s2 => exact absurd h (by simp [pm_bind_def, pmBind, jarrE])
    | obj fs => exact absurd h (by simp [pm_bind_def, pmBind, jarrE])

theorem dslStep_wait (doc : JValue) (h : (dslStep doc).1 = Except.ok ())
    (hm : (doc.member? "descriptorSetLayouts").isSome = true) :
    (dslStep doc).2.getLast? = some Cb.waitEnqueue := by
  unfold dslStep at h ⊢
  rcases hv : doc.member? "descriptorSetLayouts" with _ | v
  · rw [hv] at hm; exact absurd hm (by decide)
  · rw [hv] at h
    cases v with
    | arr l =>
        have h2 : (parseDescriptorSetLayouts (arrCount doc "samplers") l).1 = Except.ok () := h
        show (([] : List Cb) ++ (parseDescriptorSetLayouts (arrCount doc "samplers") l).2).getLast? =
          some Cb.waitEnqueue
        rw [List.nil_append]
        exact emit_bind_wait_last _ _ _ h2
    | num n => exact absurd h (by simp [pm_bind_def, pmBind, jarrE])
    | str s2 => exact absurd h (by simp [pm_bind_def, pmBind, jarrE])
    | obj fs => exact absurd h (by simp [pm_bind_def, pmBind, jarrE])

theorem plStep_wait (doc : JValue) (h : (plStep doc).1 = Except.ok ())
    (hm : (doc.member? "pipelineLayouts").isSome = true) :
    (plStep doc).2.getLast? = some Cb.waitEnqueue := by
  unfold plStep at h ⊢
  rcases hv : doc.member? "pipelineLayouts" with _ | v
  · rw [hv] at hm; exact absurd hm (by decide)
  · rw [hv] at h
    cases v with
    | arr l =>
        have h2 : (parsePipelineLayouts (arrCount doc "descriptorSetLayouts") l).1 =
          Except.ok () := h
        show (([] : List Cb) ++
            (parsePipelineLayouts (arrCount doc "descriptorSetLayouts") l).2).getLast? =
          some Cb.waitEnqueue
        rw [List.nil_append]
        exact emit_bind_wait_last _ _ _ h2
    | num n => exact absurd h (by simp [pm_bind_def, pmBind, jarrE])
    | str s2 => exact absurd h (by simp [pm_bind_def, pmBind, jarrE])
    | obj fs => exact absurd h (by simp [pm_bind_def, pmBind, jarrE])

theorem rpStep_wait (doc : JValue) (h : (rpStep doc).1 = Except.ok ())
    (hm : (doc.member? "renderPasses").isSome = true) :
    (rpStep doc).2.getLast? = some Cb.waitEnqueue := by
  unfold rpStep at h ⊢
  rcases hv : doc.member? "renderPasses" with _ | v
  · rw [hv] at hm; exact absurd hm (by decide)
  · rw [hv] at h
    cases v with
    | arr l =>
        have h2 : (parseRenderPasses l).1 = Except.ok () := h
        show (([] : List Cb) ++ (parseRenderPasses l).2).getLast? = some Cb.waitEnqueue
        rw [List.nil_append]
        exact emit_bind_wait_last _ _ _ h2
    | num n => exact absurd h (by simp [pm_bind_def, pmBind, jarrE])
    | str s2 => exact absurd h (by simp [pm_bind_def, pmBind, jarrE])
    | obj fs => exact absurd h (by simp [pm_bind_def, pmBind, jarrE])

theorem all_mono {l : List Cb} {p q : Cb → Bool} (h : l.all p = true)
    (himp : ∀ c, p c = true → q c = true) : l.all q = true := by
  simp only [List.all_eq_true] at *
  intro x hx
  exact himp x (h x hx)

theorem sm_no_pipeline (c : Cb) (h : isShaderModuleCb c = true) : (!isPipelineCb c) = true := by
  cases c <;> simp_all [isShaderModuleCb, isPipelineCb]

theorem samp_no_pipeline (c : Cb) (h : isSamplerCb c = true) : (!isPipelineCb c) = true := by
  cases c <;> simp_all [isSamplerCb, isPipelineCb]

theorem dsl_no_pipeline (c : Cb) (h : isDSLCb c = true) : (!isPipelineCb c) = true := by
  cases c <;> simp_all [isDSLCb, isPipelineCb]

theorem pl_no_pipeline (c : Cb) (h : isPLCb c = true) : (!isPipelineCb c) = true := by
  cases c <;> simp_all [isPLCb, isPipelineCb]

theorem rp_no_pipeline (c : Cb) (h : isRPCb c = true) : (!isPipelineCb c) = true := by
  cases c <;> simp_all [isRPCb, isPipelineCb]

/-- C2, amended: on every document it accepts, `StateReplayer::parse` delivers
its callbacks in FIVE kind groups, in the order shader-modules, samplers,
descriptor-set-layouts (top-level key `descriptorSetLayouts`),
pipeline-layouts, render-passes; each group contains only that kind's
callbacks; each kind whose key is present ends its group with the
`wait_enqueue` barrier before the next kind begins; and no compute- or
graphics-pipeline callback is ever delivered. -/
theorem c2_parse_order (doc : JValue) (h : (stateReplayerParse (some doc)).1 = true) :
    ((stateReplayerParse (some doc)).2 =
      (smStep doc).2 ++ ((sampStep doc).2 ++ ((dslStep doc).2 ++
        ((plStep doc).2 ++ (rpStep doc).2)))) ∧
    (smStep doc).2.all isShaderModuleCb = true ∧
    (sampStep doc).2.all isSamplerCb = true ∧
    (dslStep doc).2.all isDSLCb = true ∧
    (plStep doc).2.all isPLCb = true ∧
    (rpStep doc).2.all isRPCb = true ∧
    (stateReplayerParse (some doc)).2.all (fun c => !isPipelineCb c) = true ∧
    ((doc.member? "shaderModules").isSome = true →
      (smStep doc).2.getLast? = some Cb.waitEnqueue) ∧
    ((doc.member? "samplers").isSome = true →
      (sampStep doc).2.getLast? = some Cb.waitEnqueue) ∧
    ((doc.member? "descriptorSetLayouts").isSome = true →
      (dslStep doc).2.getLast? = some Cb.waitEnqueue) ∧
    ((doc.member? "pipelineLayouts").isSome = true →
      (plStep doc).2.getLast? = some Cb.waitEnqueue) ∧
    ((doc.member? "renderPasses").isSome = true →
      (rpStep doc).2.getLast? = some Cb.waitEnqueue) := by
  have he : stateReplayerParse (some doc) =
      match parseDocBody doc with
      | (Except.ok _, t) => (true, t)
      | (Except.error _, t) => (false, t) := rfl
  have hparse2 : (stateReplayerParse (some doc)).2 = (parseDocBody doc).2 := by
    rcases hb : parseDocBody doc with ⟨r, t⟩
    rw [he, hb]
    cases r <;> rfl
  have h0 : (parseDocBody doc).1 = Except.ok () := by
    rw [he] at h
    rcases hb : parseDocBody doc with ⟨r, t⟩
    rw [hb] at h
    cases r with
    | ok a => cases a; rfl
    | error e => simp at h
  have h0x : ((smStep doc) >>= (fun _ => (sampStep doc) >>= (fun _ => (dslStep doc) >>=
      (fun _ => (plStep doc) >>= (fun _ => rpStep doc))))).1 = Except.ok () := h0
  obtain ⟨u1, hok1, hrest1, htr1⟩ := pmBind_fst_ok _ _ _ h0x
  obtain ⟨u2, hok2, hrest2, htr2⟩ := pmBind_fst_ok _ _ _ hrest1
  obtain ⟨u3, hok3, hrest3, htr3⟩ := pmBind_fst_ok _ _ _ hrest2
  obtain ⟨u4, hok4, hrest4, htr4⟩ := pmBind_fst_ok _ _ _ hrest3
  cases u1; cases u2; cases u3; cases u4
  have htrace : (stateReplayerParse (some doc)).2 =
      (smStep doc).2 ++ ((sampStep doc).2 ++ ((dslStep doc).2 ++
        ((plStep doc).2 ++ (rpStep doc).2))) := by
    rw [hparse2]
    calc (parseDocBody doc).2
        = (smStep doc).2 ++ ((sampStep doc) >>= (fun _ => (dslStep doc) >>=
            (fun _ => (plStep doc) >>= (fun _ => rpStep doc)))).2 := htr1
      _ = _ := by rw [htr2, htr3, htr4]
  refine ⟨htrace, smStep_all doc, sampStep_all doc, dslStep_all doc, plStep_all doc,
    rpStep_all doc, ?_, fun hm => smStep_wait doc hok1 hm,
    fun hm => sampStep_wait doc hok2 hm, fun hm => dslStep_wait doc hok3 hm,
    fun hm => plStep_wait doc hok4 hm, fun hm => rpStep_wait doc hrest4 hm⟩
  rw [htrace]
  simp only [List.all_append, Bool.and_eq_true]
  exact ⟨all_mono (smStep_all doc) sm_no_pipeline,
    all_mono (sampStep_all doc) samp_no_pipeline,
    all_mono (dslStep_all doc) dsl_no_pipeline,
    all_mono (plStep_all doc) pl_no_pipeline,
    all_mono (rpStep_all doc) rp_no_pipeline⟩

/-- C2 witness: the amended order theorem applied to the empty document. -/
theorem c2_parse_order_witness :
    (stateReplayerParse (some (JValue.obj []))).2 =
      (smStep (JValue.obj [])).2 ++ ((sampStep (JValue.obj [])).2 ++
        ((dslStep (JValue.obj [])).2 ++
          ((plStep (JValue.obj [])).2 ++ (rpStep (JValue.obj [])).2))) :=
  (c2_parse_order (JValue.obj []) (by decide)).1
